import Mathlib

/-!
Verification development for the Auto Eye/Posture Annotation controller.

This file gives a shallow embedding, over exact rationals, of the
landmark-driven state-machine layer of the repository:

* `src/controller/eye_state.py`   — eye-aperture tracker (warm-up + blink
  detection in three modes, `COMBINED` being the configured one);
* `src/controller/posture_state.py` — posture calibration and scoring;
* `src/controller/process.py`     — the setup phase of the two-pass session
  orchestrator (`process_video_source`, phase 1);
* `src/controller/evaluation.py`  — the frame-label agreement metric.

Modelling conventions:

* Python floats are modelled as `ℚ`.  `np.exp` is modelled by an arbitrary
  function `expQ : ℚ → ℚ` passed explicitly; every theorem about the posture
  scorer holds for every such function, hence in particular for the real
  exponential.  `np.linalg.norm` is likewise modelled by an arbitrary
  function `normF`, so the eye-geometry theorems hold for every norm.
* Python `int(x)` truncates toward zero; on the nonnegative quantities it is
  applied to here it coincides with the floor, see `py_int_nat`.
* `collections.deque(maxlen=m)` is `deque_append`.
* `np.median` is `medianQ` (sort, take the middle element, or the mean of
  the two middle elements for even length).
* Python `round(x, n)` (round-half-even) is `py_round`.
* A video frame is represented by the measurements the controller extracts
  from it: the per-frame eye-aperture ratio (`Option ℚ`, `none` = no face)
  for the eye tracker, and the pixel coordinates of the used landmarks
  (`FacePx`, `PosePx`) for the posture tracker.
-/

/-! ## Shared numeric utilities -/

/-- Python `int(x)` for the nonnegative quantities used by the trackers
(`int(fps * HISTORY_SEC)` and friends): truncation toward zero, which is the
floor for nonnegative arguments, taken into `ℕ`. -/
def py_int_nat (q : ℚ) : ℕ := (⌊q⌋).toNat

/-- Round a rational to the nearest integer, ties to even — the rounding used
by Python's `round`. -/
def round_half_even (x : ℚ) : ℤ :=
  let f := ⌊x⌋
  let r := x - f
  if r < 1/2 then f
  else if 1/2 < r then f + 1
  else if f % 2 = 0 then f else f + 1

/-- Python `round(x, n)`. -/
def py_round (x : ℚ) (n : ℕ) : ℚ := (round_half_even (x * 10 ^ n) : ℚ) / 10 ^ n

/-- Source `collections.deque(maxlen := m)` push on the right: append, and drop from
the left when the capacity is exceeded. -/
def deque_append (maxlen : ℕ) (l : List ℚ) (x : ℚ) : List ℚ :=
  let l2 := l ++ [x]
  if maxlen < l2.length then l2.drop (l2.length - maxlen) else l2

/-- Insert into a sorted list (ordered by `le`). -/
def insert_le {α : Type} (le : α → α → Bool) (x : α) : List α → List α
  | [] => [x]
  | y :: ys => if le x y then x :: y :: ys else y :: insert_le le x ys

/-- Insertion sort by `le`. -/
def sort_le {α : Type} (le : α → α → Bool) : List α → List α
  | [] => []
  | x :: xs => insert_le le x (sort_le le xs)

/-- Sort a list of rationals ascending. -/
def sortQ : List ℚ → List ℚ := sort_le (fun a b => decide (a ≤ b))

/-- Source `np.median` of a sequence of rationals: middle element of the sorted
sequence, or the mean of the two middle elements for even length.  (The
sources only apply it to nonempty sequences; the empty case returns 0.) -/
def medianQ (l : List ℚ) : ℚ :=
  let s := sortQ l
  let n := s.length
  if n = 0 then 0
  else if n % 2 = 1 then s.getD (n / 2) 0
  else (s.getD (n / 2 - 1) 0 + s.getD (n / 2) 0) / 2

/-- Source `np.clip(a, lo, hi)`. -/
def np_clip (a lo hi : ℚ) : ℚ := min hi (max lo a)

/-! ## Eye-aperture tracker (`src/controller/eye_state.py`) -/

/-- Source `MODE` selection: `"HYSTERESIS"`, `"TIME"` or `"COMBINED"`
(eye_state.py line 6). -/
inductive Mode : Type
  | time : Mode
  | hysteresis : Mode
  | combined : Mode
deriving DecidableEq

/-- Source `MODE = "COMBINED"` — the configured blink-detection policy. -/
def MODE : Mode := Mode.combined

/-- Source `HISTORY_SEC = 2.0`. -/
def HISTORY_SEC : ℚ := 2
/-- Source `MIN_HISTORY_SEC = 0.5`. -/
def MIN_HISTORY_SEC : ℚ := 0.5
/-- Source `CLOSE_TIME_SEC = 0.07`. -/
def CLOSE_TIME_SEC : ℚ := 0.07
/-- Source `OPEN_TIME_SEC = 0.10`. -/
def OPEN_TIME_SEC : ℚ := 0.10
/-- Source `THRESH_RATIO = 0.70` (single threshold of the `TIME` policy; the source
constant name ends in `RATIO`). -/
def THRESH_FRAC : ℚ := 0.70
/-- Source `CLOSE_THRESH_RATIO = 0.65`. -/
def CLOSE_THRESH_FRAC : ℚ := 0.65
/-- Source `OPEN_THRESH_RATIO = 0.75`. -/
def OPEN_THRESH_FRAC : ℚ := 0.75

/-- The mutable eye-tracker state dictionary built by `init_eye_state`. -/
structure EyeState : Type where
  fps : ℚ
  history_frames : ℕ
  min_history : ℕ
  consec_closed : ℕ
  consec_open : ℕ
  ear_history : List ℚ
  blink_count : ℕ
  eyes_closed : Bool
  closed_counter : ℕ
  open_counter : ℕ
  warmed_up : Bool
deriving DecidableEq

/-- Source `init_eye_state(fps)` (eye_state.py lines 21–38). -/
def init_eye_state (fps : ℚ) : EyeState :=
  let fps := max fps 1
  { fps := fps
    history_frames := max 1 (py_int_nat (fps * HISTORY_SEC))
    min_history := max 10 (py_int_nat (fps * MIN_HISTORY_SEC))
    consec_closed := max 1 (py_int_nat (fps * CLOSE_TIME_SEC))
    consec_open := max 1 (py_int_nat (fps * OPEN_TIME_SEC))
    ear_history := []
    blink_count := 0
    eyes_closed := false
    closed_counter := 0
    open_counter := 0
    warmed_up := false }

/-- The per-frame info dictionary returned by `process_eye_frame`. -/
structure EyeInfo : Type where
  ear : ℚ
  status : String
  eyes_closed : Bool
  blink_count : ℕ
  blink_increment : ℕ
  mode : Mode
  warmed_up : Bool
  history_len : ℕ
deriving DecidableEq

/-- Source `open_median = np.median(state["ear_history"])` (line 92). -/
def open_median (s : EyeState) : ℚ := medianQ s.ear_history

/-- Source `tc = open_median * CLOSE_THRESH_RATIO` (lines 112, 125). -/
def close_thresh (s : EyeState) : ℚ := open_median s * CLOSE_THRESH_FRAC

/-- Source `to = open_median * OPEN_THRESH_RATIO` (lines 113, 126). -/
def open_thresh (s : EyeState) : ℚ := open_median s * OPEN_THRESH_FRAC

/-- The `MODE == "TIME"` block of `process_eye_frame` (lines 94–109), as a
state transformer also returning the emitted `blink_increment`. -/
def time_step (ear : ℚ) (s : EyeState) : EyeState × ℕ :=
  let thresh := open_median s * THRESH_FRAC
  if ear < thresh then
    let s1 := { s with closed_counter := s.closed_counter + 1, open_counter := 0 }
    (if s1.consec_closed ≤ s1.closed_counter then { s1 with eyes_closed := true } else s1, 0)
  else
    let s1 := { s with open_counter := s.open_counter + 1, closed_counter := 0 }
    if s1.consec_open ≤ s1.open_counter then
      if s1.eyes_closed then
        ({ s1 with eyes_closed := false, blink_count := s1.blink_count + 1,
                   ear_history := deque_append s1.history_frames s1.ear_history ear }, 1)
      else
        ({ s1 with eyes_closed := false,
                   ear_history := deque_append s1.history_frames s1.ear_history ear }, 0)
    else (s1, 0)

/-- The `MODE == "HYSTERESIS"` block (lines 111–122). -/
def hysteresis_step (ear : ℚ) (s : EyeState) : EyeState × ℕ :=
  if ear < close_thresh s ∧ s.eyes_closed = false then
    ({ s with eyes_closed := true }, 0)
  else if open_thresh s < ear ∧ s.eyes_closed = true then
    ({ s with eyes_closed := false, blink_count := s.blink_count + 1,
              ear_history := deque_append s.history_frames s.ear_history ear }, 1)
  else if s.eyes_closed = false ∧ open_thresh s < ear then
    ({ s with ear_history := deque_append s.history_frames s.ear_history ear }, 0)
  else (s, 0)

/-- The `MODE == "COMBINED"` block (lines 124–147): debounced hysteresis. -/
def combined_step (ear : ℚ) (s : EyeState) : EyeState × ℕ :=
  if s.eyes_closed = false then
    if ear < close_thresh s then
      let s1 := { s with closed_counter := s.closed_counter + 1, open_counter := 0 }
      (if s1.consec_closed ≤ s1.closed_counter then { s1 with eyes_closed := true } else s1, 0)
    else
      let s1 := { s with closed_counter := 0 }
      (if open_thresh s < ear then
        { s1 with ear_history := deque_append s1.history_frames s1.ear_history ear }
       else s1, 0)
  else
    if open_thresh s < ear then
      let s1 := { s with open_counter := s.open_counter + 1, closed_counter := 0 }
      if s1.consec_open ≤ s1.open_counter then
        ({ s1 with eyes_closed := false, blink_count := s1.blink_count + 1,
                   ear_history := deque_append s1.history_frames s1.ear_history ear }, 1)
      else (s1, 0)
    else ({ s with open_counter := 0 }, 0)

/-- Source `process_eye_frame(frame, face_results, state)` (lines 50–153).  The frame
and detection results enter only through the aperture ratio computed from the
facial landmarks, so the input is that ratio, `none` when
`face_results.multi_face_landmarks` is empty.  Returns the mutated state and
the info dictionary. -/
def process_eye_frame (ear? : Option ℚ) (s : EyeState) : EyeState × EyeInfo :=
  let info0 : EyeInfo :=
    { ear := 0, status := "No face", eyes_closed := s.eyes_closed,
      blink_count := s.blink_count, blink_increment := 0, mode := MODE,
      warmed_up := s.warmed_up, history_len := s.ear_history.length }
  match ear? with
  | none => (s, info0)
  | some ear =>
    let info0 := { info0 with ear := py_round ear 4 }
    if s.warmed_up = false then
      -- WARM-UP PHASE (lines 78–87)
      let s1 := { s with ear_history := deque_append s.history_frames s.ear_history ear }
      if s1.min_history ≤ s1.ear_history.length then
        ({ s1 with warmed_up := true }, { info0 with status := "Warming Up... (Done)" })
      else
        (s1, { info0 with status := "Warming Up... (" ++ toString s1.ear_history.length
                            ++ "/" ++ toString s1.min_history ++ ")" })
    else
      -- BLINK DETECTION (lines 90–147)
      let r :=
        match MODE with
        | Mode.time => time_step ear s
        | Mode.hysteresis => hysteresis_step ear s
        | Mode.combined => combined_step ear s
      (r.1, { info0 with eyes_closed := r.1.eyes_closed, blink_count := r.1.blink_count,
                         blink_increment := r.2,
                         status := if r.1.eyes_closed then "Closed" else "Open" })

/-- Run the eye tracker over a list of per-frame aperture ratios (all frames
with a detected face). -/
def run_ears (s : EyeState) (l : List ℚ) : EyeState :=
  l.foldl (fun st e => (process_eye_frame (some e) st).1) s

/-- The emitted `blink_increment` of each frame of a run. -/
def incr_list (s : EyeState) : List ℚ → List ℕ
  | [] => []
  | e :: es =>
    (process_eye_frame (some e) s).2.blink_increment ::
      incr_list ((process_eye_frame (some e) s).1) es

/-- Total number of blink increments emitted over a run. -/
def incr_total (s : EyeState) (l : List ℚ) : ℕ := (incr_list s l).sum

/-- Per-frame hypothesis: every ratio of the list is below the close
threshold of the state at which that frame is processed. -/
def all_below_close (s : EyeState) : List ℚ → Bool
  | [] => true
  | e :: es =>
    decide (e < close_thresh s) && all_below_close ((process_eye_frame (some e) s).1) es

/-- Per-frame hypothesis: every ratio is above the open threshold of the
state at which that frame is processed. -/
def all_above_open (s : EyeState) : List ℚ → Bool
  | [] => true
  | e :: es =>
    decide (open_thresh s < e) && all_above_open ((process_eye_frame (some e) s).1) es

/-- Per-frame hypothesis: every ratio is at or above the close threshold of
the state at which that frame is processed. -/
def all_at_or_above_close (s : EyeState) : List ℚ → Bool
  | [] => true
  | e :: es =>
    decide (close_thresh s ≤ e) && all_at_or_above_close ((process_eye_frame (some e) s).1) es

/-- All stored aperture ratios of a state are nonnegative (every ratio the
tracker ever stores is an output of the aperture computation, which is a
quotient of norms or the `0` fallback). -/
def hist_nonneg (s : EyeState) : Prop := ∀ x ∈ s.ear_history, 0 ≤ x

instance (s : EyeState) : Decidable (hist_nonneg s) := by
  unfold hist_nonneg; infer_instance

/-! ## Posture tracker (`src/controller/posture_state.py`) -/

/-- Source `EMA_ALPHA = 0.3`. -/
def EMA_ALPHA : ℚ := 0.3
/-- Source `CALIB_FRAMES_NEEDED = 60`. -/
def CALIB_FRAMES_NEEDED : ℕ := 60
/-- Source `MIN_FACE_PX = 60`. -/
def MIN_FACE_PX : ℕ := 60
/-- Source `MAX_FACE_PX = 800`. -/
def MAX_FACE_PX : ℕ := 800
/-- Source `MIN_SHOULDER_PX = 40`. -/
def MIN_SHOULDER_PX : ℕ := 40
/-- Source `GOOD_CENTER_REL = -0.85`. -/
def GOOD_CENTER_REL : ℚ := -0.85
/-- Source `SENSITIVITY = 5.0`. -/
def SENSITIVITY : ℚ := 5
/-- Source `SCALE_FACTOR = 2.5`. -/
def SCALE_FACTOR : ℚ := 2.5
/-- Source `FACE_WEIGHT = 0.7`. -/
def FACE_WEIGHT : ℚ := 0.7
/-- Source `SHOULDER_WEIGHT = 0.3`. -/
def SHOULDER_WEIGHT : ℚ := 0.3
/-- Source `DIST_MILD_MAX = 50`. -/
def DIST_MILD_MAX : ℚ := 50
/-- Source `FACE_WIDTH_AT_50CM_PX = 120.0`. -/
def FACE_WIDTH_AT_50CM_PX : ℚ := 120
/-- Source `REAL_FACE_WIDTH_CM = 14.0`. -/
def REAL_FACE_WIDTH_CM : ℚ := 14
/-- Source `FOCAL_LENGTH_PX = (FACE_WIDTH_AT_50CM_PX * 50.0) / REAL_FACE_WIDTH_CM`. -/
def FOCAL_LENGTH_PX : ℚ := (FACE_WIDTH_AT_50CM_PX * 50) / REAL_FACE_WIDTH_CM

/-- An RGB colour triple as used in the info dictionaries. -/
abbrev Color : Type := ℕ × ℕ × ℕ

/-- The pixel coordinates (the output of `_px`, i.e. `int(lm.x*w)`,
`int(lm.y*h)`) of the facial landmarks the posture controller reads:
`NOSE_TIP` (index 1), `CHIN` (152), `FOREHEAD` (10) and the two outer-eye
landmarks `L_EYE_OUT` (33), `R_EYE_OUT` (263). -/
structure FacePx : Type where
  nose_x : ℤ
  nose_y : ℤ
  chin_y : ℤ
  fore_y : ℤ
  eye_l_x : ℤ
  eye_r_x : ℤ
deriving DecidableEq

/-- The pixel coordinates of the body landmarks read: left and right
shoulder (`L_SH` = 11, `R_SH` = 12). -/
structure PosePx : Type where
  lsh_x : ℤ
  lsh_y : ℤ
  rsh_x : ℤ
  rsh_y : ℤ
deriving DecidableEq

/-- Source `face_h = abs(chin_y - fore_y)`. -/
def face_h (fp : FacePx) : ℕ := (fp.chin_y - fp.fore_y).natAbs

/-- Source `sh_w = abs(lsh[0] - rsh[0])`. -/
def sh_w (pp : PosePx) : ℕ := (pp.lsh_x - pp.rsh_x).natAbs

/-- Source `mid_sh = ((lsh[0]+rsh[0]) // 2, (lsh[1]+rsh[1]) // 2)` — Python floor
division. -/
def mid_sh (pp : PosePx) : ℤ × ℤ :=
  (Int.fdiv (pp.lsh_x + pp.rsh_x) 2, Int.fdiv (pp.lsh_y + pp.rsh_y) 2)

/-- Source `_estimate_distance` (posture_state.py lines 40–48).  The landmark reads
are total here, so the `except` branch cannot fire. -/
def estimate_distance (fp : FacePx) : Option ℚ :=
  let w_px := (fp.eye_l_x - fp.eye_r_x).natAbs
  if w_px < 20 then none
  else some ((REAL_FACE_WIDTH_CM * FOCAL_LENGTH_PX) / w_px)

/-- Source `_status_from_distance` (lines 50–54). -/
def status_from_distance (d : ℚ) : String × Color × ℚ :=
  if DIST_MILD_MAX ≤ d then ("Straight", (0, 255, 0), 2)
  else ("Hunched", (0, 0, 255), 0.5)

/-- The mutable posture-tracker state dictionary.

`buffers_aliased` models the Python object graph after
`state["calib_face"] = state["calib_shoulder"] = []` (line 82): that
statement binds **both** keys to one and the same list object, so from then
on an append through either key appends to the single shared list.  While
`buffers_aliased` is true the two fields are kept equal and grow together,
exactly as the shared Python list does. -/
structure PostureState : Type where
  face_ref : Option ℚ
  shoulder_ref : Option ℚ
  smooth_score : ℚ
  calibrated : Bool
  calib_face : List ℚ
  calib_shoulder : List ℚ
  buffers_aliased : Bool
deriving DecidableEq

/-- Source `init_posture_state()` (lines 27–35): the two buffers are distinct empty
list objects here. -/
def init_posture_state : PostureState :=
  { face_ref := none, shoulder_ref := none, smooth_score := 1.25,
    calibrated := false, calib_face := [], calib_shoulder := [],
    buffers_aliased := false }

/-- The two appends `state["calib_face"].append(face_h)`;
`state["calib_shoulder"].append(sh_w)` (lines 74–75), honouring the aliasing
of the two buffers after a successful calibration. -/
def append_samples (s : PostureState) (fh sw : ℚ) : PostureState :=
  if s.buffers_aliased then
    { s with calib_face := s.calib_face ++ [fh, sw],
             calib_shoulder := s.calib_shoulder ++ [fh, sw] }
  else
    { s with calib_face := s.calib_face ++ [fh],
             calib_shoulder := s.calib_shoulder ++ [sw] }

/-- Source `calibrate_posture_frame(frame, face_results, pose_results, state)`
(lines 57–83).  Inputs are the landmark sets (`none` = not detected);
returns the mutated state and the `done` flag. -/
def calibrate_posture_frame (face? : Option FacePx) (pose? : Option PosePx)
    (s : PostureState) : PostureState × Bool :=
  match face?, pose? with
  | some fp, some pp =>
    let fh := face_h fp
    let sw := sh_w pp
    let s1 :=
      if MIN_FACE_PX ≤ fh ∧ fh ≤ MAX_FACE_PX ∧ MIN_SHOULDER_PX ≤ sw then
        append_samples s (fh : ℚ) (sw : ℚ)
      else s
    let done := CALIB_FRAMES_NEEDED ≤ s1.calib_face.length
    if done ∧ 10 ≤ s1.calib_face.length then
      ({ s1 with face_ref := some (medianQ s1.calib_face),
                 shoulder_ref := some (medianQ s1.calib_shoulder),
                 calibrated := true,
                 calib_face := [], calib_shoulder := [],
                 buffers_aliased := true }, done)
    else (s1, done)
  | _, _ => (s, false)

/-- The info dictionary returned by `process_posture_frame`. -/
structure PostureInfo : Type where
  status : String
  color : Color
  score : ℚ
  smooth_score : ℚ
  calibrated : Bool
  nose_pt : Option (ℤ × ℤ)
  mid_shoulder : Option (ℤ × ℤ)
  distance_cm : Option ℚ

/-- The EMA blend `state["smooth_score"] = EMA_ALPHA * raw + (1 - EMA_ALPHA)
* state["smooth_score"]` (lines 120, 138, 150). -/
def apply_ema (s : PostureState) (raw : ℚ) : PostureState :=
  { s with smooth_score := EMA_ALPHA * raw + (1 - EMA_ALPHA) * s.smooth_score }

/-- The raw (pre-EMA) score injected by the primary face+shoulder scoring
branch (lines 113–119).  `expQ` models `np.exp`. -/
def primary_raw (expQ : ℚ → ℚ) (fp : FacePx) (pp : PosePx) (s : PostureState) : ℚ :=
  let ref := FACE_WEIGHT * s.face_ref.getD 0 + SHOULDER_WEIGHT * s.shoulder_ref.getD 0
  let cur := FACE_WEIGHT * (face_h fp : ℚ) + SHOULDER_WEIGHT * (sh_w pp : ℚ)
  let scale_ratio := if 0 < cur then ref / cur else 1
  let ratio := ((fp.nose_y - (mid_sh pp).2 : ℤ) : ℚ) / (face_h fp : ℚ) * scale_ratio
  let shifted := ratio - GOOD_CENTER_REL
  np_clip (SCALE_FACTOR * expQ (-SENSITIVITY * shifted)) 0 SCALE_FACTOR

/-- The fallback branch body (lines 135–144 = lines 147–155, the source
duplicates the code verbatim): score the monocular distance estimate `d` and
blend it into the EMA. -/
def fallback_update (d : ℚ) (s : PostureState) (info0 : PostureInfo) :
    PostureState × PostureInfo :=
  let r := status_from_distance d
  let s1 := apply_ema s r.2.2
  (s1, { info0 with status := r.1, color := r.2.1, score := r.2.2,
                    smooth_score := py_round s1.smooth_score 3,
                    distance_cm := some (py_round d 1) })

/-- The tail of `process_posture_frame` (lines 146–161), reached when the
primary branch did not return. -/
def posture_tail (fp : FacePx) (s : PostureState) (info0 : PostureInfo) :
    PostureState × PostureInfo :=
  if MIN_FACE_PX ≤ face_h fp ∧ face_h fp ≤ MAX_FACE_PX then
    match estimate_distance fp with
    | some d => fallback_update d s info0
    | none => (s, { info0 with status := "Face too small", color := (200, 200, 200) })
  else (s, { info0 with status := "Too close/far", color := (0, 0, 255) })

/-- Source `process_posture_frame(frame, face_results, pose_results, state)`
(lines 86–161).  `expQ` models `np.exp`; the state's reference values are
read through `getD 0`, which matches the source exactly on every path on
which it reads them (they are only read under `state["calibrated"]`, and
calibration always sets both). -/
def process_posture_frame (expQ : ℚ → ℚ) (face? : Option FacePx)
    (pose? : Option PosePx) (s : PostureState) : PostureState × PostureInfo :=
  let info0 : PostureInfo :=
    { status := "No face", color := (200, 200, 200), score := 0,
      smooth_score := py_round s.smooth_score 3, calibrated := s.calibrated,
      nose_pt := none, mid_shoulder := none, distance_cm := none }
  match face? with
  | none => (s, info0)
  | some fp =>
    let fh := face_h fp
    match pose? with
    | some pp =>
      if MIN_FACE_PX ≤ fh ∧ fh ≤ MAX_FACE_PX then
        if MIN_SHOULDER_PX ≤ sh_w pp ∧ s.calibrated = true then
          -- primary face+shoulder scoring (lines 112–133)
          let raw := primary_raw expQ fp pp s
          let s1 := apply_ema s raw
          let score := s1.smooth_score
          let st : String × Color :=
            if 1.30 ≤ score then ("Straight", (0, 255, 0)) else ("Hunched", (0, 0, 255))
          (s1, { info0 with status := st.1, color := st.2,
                            score := py_round score 3,
                            smooth_score := py_round s1.smooth_score 3,
                            nose_pt := some (fp.nose_x, fp.nose_y),
                            mid_shoulder := some (mid_sh pp) })
        else
          -- shoulder unusable or uncalibrated: distance fallback (lines 134–144);
          -- if the estimate is unavailable the source falls through to the tail
          match estimate_distance fp with
          | some d => fallback_update d s info0
          | none => posture_tail fp s info0
      else posture_tail fp s info0
    | none => posture_tail fp s info0

/-- Observer: the raw value blended into the EMA by this scoring call, if
the call reaches a scoring (status-producing) branch. -/
def posture_raw (expQ : ℚ → ℚ) (face? : Option FacePx) (pose? : Option PosePx)
    (s : PostureState) : Option ℚ :=
  match face? with
  | none => none
  | some fp =>
    let fh := face_h fp
    let tail : Option ℚ :=
      if MIN_FACE_PX ≤ fh ∧ fh ≤ MAX_FACE_PX then
        match estimate_distance fp with
        | some d => some (status_from_distance d).2.2
        | none => none
      else none
    match pose? with
    | some pp =>
      if MIN_FACE_PX ≤ fh ∧ fh ≤ MAX_FACE_PX then
        if MIN_SHOULDER_PX ≤ sh_w pp ∧ s.calibrated = true then
          some (primary_raw expQ fp pp s)
        else
          match estimate_distance fp with
          | some d => some (status_from_distance d).2.2
          | none => tail
      else tail
    | none => tail

/-! ## Session orchestrator, setup phase (`src/controller/process.py`) -/

/-- One video frame, represented by what the two trackers extract from it:
the aperture ratio (`none` = no face detected), and the landmark pixel data
consumed by the posture tracker. -/
structure Frame : Type where
  ear : Option ℚ
  face : Option FacePx
  pose : Option PosePx

/-- The result of the phase-1 loop of `process_video_source`. -/
structure SetupResult : Type where
  eye : EyeState
  posture : PostureState
  warmup_done : Bool
  calib_done : Bool
  remaining : List Frame

/-- The distinguishing causes of the two fatal setup exceptions
(process.py lines 100–110). -/
inductive SetupFailure : Type
  | warmup_failed : SetupFailure    -- "Eye warm-up failed, insufficient face data"
  | calib_failed : SetupFailure     -- "Posture calibration failed, could not detect reference pose"
deriving DecidableEq

/-- The phase-1 loop `while cap.isOpened() and not (warmup_done and
calib_done)` (process.py lines 65–94): each frame is fed to the eye
tracker's step and to the posture calibration, and the two flags are
refreshed from their outputs.  Frame-source exhaustion is the end of the
list.  (`SHOW_PROCESSING` is `False`, so the display early-exit is dead
code.) -/
def setup_loop : List Frame → EyeState → PostureState → Bool → Bool → SetupResult
  | [], es, ps, w, c => { eye := es, posture := ps, warmup_done := w, calib_done := c, remaining := [] }
  | f :: rest, es, ps, w, c =>
    if w && c then
      { eye := es, posture := ps, warmup_done := w, calib_done := c, remaining := f :: rest }
    else
      let es1 := (process_eye_frame f.ear es).1
      let pc := calibrate_posture_frame f.face f.pose ps
      setup_loop rest es1 pc.1 es1.warmed_up pc.2

/-- Phase 1 of `process_video_source` on a given frame sequence, starting
from freshly initialized tracker states (lines 45–46, 61–64). -/
def run_setup (fps : ℚ) (frames : List Frame) : SetupResult :=
  setup_loop frames (init_eye_state fps) init_posture_state false false

/-- Phase 1 together with its failure checks (lines 96–110): on exhaustion
without warm-up the warm-up exception is raised; otherwise, without
calibration, the calibration exception; otherwise the session proceeds to
the classification pass with the tracker states preserved. -/
def process_setup (fps : ℚ) (frames : List Frame) :
    Except SetupFailure (EyeState × PostureState) :=
  let r := run_setup fps frames
  if r.warmup_done = false then Except.error SetupFailure.warmup_failed
  else if r.calib_done = false then Except.error SetupFailure.calib_failed
  else Except.ok (r.eye, r.posture)

/-- A call into the posture tracker: the calibration entry point or the
scoring entry point, with that frame's landmark data. -/
inductive PostureCall : Type
  | calib : Option FacePx → Option PosePx → PostureCall
  | score : Option FacePx → Option PosePx → PostureCall

/-- Apply one posture-tracker call to the state. -/
def posture_call_step (expQ : ℚ → ℚ) (s : PostureState) : PostureCall → PostureState
  | PostureCall.calib f p => (calibrate_posture_frame f p s).1
  | PostureCall.score f p => (process_posture_frame expQ f p s).1

/-- Run a sequence of posture-tracker calls from the fresh state. -/
def run_posture (expQ : ℚ → ℚ) (calls : List PostureCall) : PostureState :=
  calls.foldl (posture_call_step expQ) init_posture_state

/-- Run the calibration entry point over a list of frames. -/
def run_calib (s : PostureState) (l : List (Option FacePx × Option PosePx)) : PostureState :=
  l.foldl (fun st f => (calibrate_posture_frame f.1 f.2 st).1) s

/-! ## Aperture-ratio geometry (`src/controller/eye_state.py` lines 40–48) -/

/-- Source `LEFT_EYE = [33, 160, 158, 133, 153, 144]`. -/
def LEFT_EYE : List ℕ := [33, 160, 158, 133, 153, 144]
/-- Source `RIGHT_EYE = [362, 385, 387, 263, 373, 380]`. -/
def RIGHT_EYE : List ℕ := [362, 385, 387, 263, 373, 380]

/-- Source `dist(a, b) = np.linalg.norm(lm[a] - lm[b])`, with the norm modelled by
an arbitrary function `normF` of the coordinate difference, and the landmark
array by `lm : ℕ → ℚ × ℚ`. -/
def lm_dist (normF : ℚ × ℚ → ℚ) (lm : ℕ → ℚ × ℚ) (a b : ℕ) : ℚ :=
  normF ((lm a).1 - (lm b).1, (lm a).2 - (lm b).2)

/-- The left-eye ratio `ear1 = v1 / (2*h1) if h1 > 0 else 0` (lines 42–46). -/
def left_ear (normF : ℚ × ℚ → ℚ) (lm : ℕ → ℚ × ℚ) : ℚ :=
  let d := lm_dist normF lm
  let v1 := d (LEFT_EYE.getD 1 0) (LEFT_EYE.getD 5 0) + d (LEFT_EYE.getD 2 0) (LEFT_EYE.getD 4 0)
  let h1 := d (LEFT_EYE.getD 0 0) (LEFT_EYE.getD 3 0)
  if 0 < h1 then v1 / (2 * h1) else 0

/-- The right-eye ratio `ear2 = v2 / (2*h2) if h2 > 0 else 0` (lines 44–47). -/
def right_ear (normF : ℚ × ℚ → ℚ) (lm : ℕ → ℚ × ℚ) : ℚ :=
  let d := lm_dist normF lm
  let v2 := d (RIGHT_EYE.getD 1 0) (RIGHT_EYE.getD 5 0) + d (RIGHT_EYE.getD 2 0) (RIGHT_EYE.getD 4 0)
  let h2 := d (RIGHT_EYE.getD 0 0) (RIGHT_EYE.getD 3 0)
  if 0 < h2 then v2 / (2 * h2) else 0

/-- Source `_ear_from_landmarks(lm)` (lines 40–48): `(ear1 + ear2) / 2`. -/
def ear_from_landmarks (normF : ℚ × ℚ → ℚ) (lm : ℕ → ℚ × ℚ) : ℚ :=
  (left_ear normF lm + right_ear normF lm) / 2

/-! ## Evaluation (`src/controller/evaluation.py`) -/

/-- The per-frame label dictionary `{"eye_state": ..., "posture": ...}`;
either key may be absent (the source reads them with `.get(key, "")`). -/
structure FrameLabels : Type where
  eye_state : Option String
  posture : Option String
deriving DecidableEq

instance : Inhabited FrameLabels := ⟨⟨none, none⟩⟩

/-- A frame-indexed label mapping: a Python dict with (distinct) frame-index
keys.  The source keys the dicts by decimal strings and orders them with
`sorted(keys, key=int)`; the keys are modelled by their numeric value. -/
abbrev LabelMap : Type := List (ℕ × FrameLabels)

/-- Dict lookup. -/
def lookup_lm (m : LabelMap) (k : ℕ) : Option FrameLabels :=
  (m.find? (fun p => p.1 == k)).map Prod.snd

/-- The frame-index key set of a mapping. -/
def key_set (m : LabelMap) : Finset ℕ := (m.map Prod.fst).toFinset

/-- Per-class F1 with `zero_division=0`: `2·tp / (2·tp + fp + fn)`, and `0`
when that denominator is zero.  (Equal to `2PR/(P+R)` with precision/recall
zeroed on empty support, as `sklearn.metrics.f1_score` computes it.) -/
def f1_class (c : String) (y_true y_pred : List String) : ℚ :=
  let pairs := y_true.zip y_pred
  let tp := (pairs.filter (fun p => p.1 == c && p.2 == c)).length
  let fpos := (pairs.filter (fun p => p.2 == c && p.1 != c)).length
  let fneg := (pairs.filter (fun p => p.1 == c && p.2 != c)).length
  if 2 * tp + fpos + fneg = 0 then 0
  else ((2 * tp : ℕ) : ℚ) / ((2 * tp + fpos + fneg : ℕ) : ℚ)

/-- Source `f1_score(y_true, y_pred, average='macro', zero_division=0)`: the mean of
the per-class F1 over the classes occurring in either argument. -/
def macro_f1 (y_true y_pred : List String) : ℚ :=
  let labels := (y_true ++ y_pred).dedup
  ((labels.map (fun c => f1_class c y_true y_pred)).sum) / (labels.length : ℚ)

/-- Source `compute_f1_scores(ground_truth, generated)` (evaluation.py lines 5–51).
`Except.error` is the raised `ValueError`; the `{"eye_f1": None,
"posture_f1": None}` return is `Except.ok (none, none)`. -/
def compute_f1_scores (ground_truth generated : LabelMap) :
    Except String (Option ℚ × Option ℚ) :=
  if ground_truth.isEmpty then Except.ok (none, none)
  else
    let gt_frames := sort_le (fun a b : ℕ => decide (a ≤ b)) (ground_truth.map Prod.fst)
    let gen_frames := sort_le (fun a b : ℕ => decide (a ≤ b)) (generated.map Prod.fst)
    if gt_frames.length ≠ gen_frames.length then
      Except.error "Frame count mismatch"
    else
      let missing := gt_frames.filter (fun f => (lookup_lm generated f).isNone)
      if missing.isEmpty = false then
        Except.error "Missing generated labels for frames"
      else
        let eye_gt := gt_frames.map (fun f => ((lookup_lm ground_truth f).getD default).eye_state.getD "")
        let eye_pred := gt_frames.map (fun f => ((lookup_lm generated f).getD default).eye_state.getD "")
        let posture_gt := gt_frames.map (fun f => ((lookup_lm ground_truth f).getD default).posture.getD "")
        let posture_pred := gt_frames.map (fun f => ((lookup_lm generated f).getD default).posture.getD "")
        Except.ok (some (py_round (macro_f1 eye_gt eye_pred) 4),
                   some (py_round (macro_f1 posture_gt posture_pred) 4))

/-! ## Helper lemmas: derived eye-tracker constants -/

lemma init_eye_state_min_history (fps : ℚ) :
    (init_eye_state fps).min_history = max 10 (py_int_nat (max fps 1 * MIN_HISTORY_SEC)) := rfl

lemma init_eye_state_history_frames (fps : ℚ) :
    (init_eye_state fps).history_frames = max 1 (py_int_nat (max fps 1 * HISTORY_SEC)) := rfl

lemma init_consts_ge_one (fps : ℚ) :
    1 ≤ (init_eye_state fps).history_frames ∧ 1 ≤ (init_eye_state fps).min_history ∧
    1 ≤ (init_eye_state fps).consec_closed ∧ 1 ≤ (init_eye_state fps).consec_open := by
  refine ⟨Nat.le_max_left _ _, le_trans (by norm_num) (Nat.le_max_left 10 _),
    Nat.le_max_left _ _, Nat.le_max_left _ _⟩

lemma init_min_le_history (fps : ℚ) (h : 5 ≤ fps) :
    (init_eye_state fps).min_history ≤ (init_eye_state fps).history_frames := by
  have h1 : (1:ℚ) ≤ fps := by linarith
  have hmax : max fps 1 = fps := max_eq_left h1
  rw [init_eye_state_min_history, init_eye_state_history_frames, hmax]
  have hfloor2 : (10 : ℤ) ≤ ⌊fps * HISTORY_SEC⌋ := by
    rw [Int.le_floor]
    show ((10:ℤ) : ℚ) ≤ fps * HISTORY_SEC
    have : HISTORY_SEC = 2 := rfl
    rw [this]; push_cast; linarith
  have h10 : 10 ≤ py_int_nat (fps * HISTORY_SEC) := by
    unfold py_int_nat
    omega
  have hmono : py_int_nat (fps * MIN_HISTORY_SEC) ≤ py_int_nat (fps * HISTORY_SEC) := by
    unfold py_int_nat
    have : ⌊fps * MIN_HISTORY_SEC⌋ ≤ ⌊fps * HISTORY_SEC⌋ := by
      apply Int.floor_le_floor
      have hs : MIN_HISTORY_SEC = (0.5 : ℚ) := rfl
      have hh : HISTORY_SEC = 2 := rfl
      rw [hs, hh]
      nlinarith
    omega
  have : max 1 (py_int_nat (fps * HISTORY_SEC)) = py_int_nat (fps * HISTORY_SEC) :=
    max_eq_right (by omega)
  rw [this]
  exact max_le h10 hmono

/-- C3 — For every fps ≥ 1 the four derived frame-count constants of
`init_eye_state` are ≥ 1; the claimed inequality `minHistoryFrames ≤
historyFrames`, however, only holds for fps ≥ 5 (at fps = 1 the code yields
`min_history = 10 > 2 = history_frames`, see the counterexample), so the
second part is stated for fps ≥ 5. -/
theorem c3_derived_constants_amended :
    (∀ fps : ℚ, 1 ≤ fps →
      1 ≤ (init_eye_state fps).history_frames ∧ 1 ≤ (init_eye_state fps).min_history ∧
      1 ≤ (init_eye_state fps).consec_closed ∧ 1 ≤ (init_eye_state fps).consec_open) ∧
    (∀ fps : ℚ, 5 ≤ fps →
      (init_eye_state fps).min_history ≤ (init_eye_state fps).history_frames) :=
  ⟨fun fps _ => init_consts_ge_one fps, fun fps h => init_min_le_history fps h⟩

/-! ## C2: setup-phase exit and failure reporting -/

/-- C2 — Setup-phase exit of `process_video_source`: (i) once a frame step
has left both the warm-up flag and the calibration-complete flag true, the
loop processes no further frame and leaves the remaining frames untouched;
(ii) if the frame source is exhausted while warm-up is incomplete, the
session fails with the warm-up cause; (iii) if warm-up completed but
calibration did not, it fails with the calibration cause; (iv) otherwise the
session proceeds with the tracker states of the loop.  The failure is the
function's result — nothing retries it. -/
theorem c2_setup_exit_and_failure :
    (∀ (es : EyeState) (ps : PostureState) (f : Frame) (rest : List Frame),
      setup_loop (f :: rest) es ps true true =
        { eye := es, posture := ps, warmup_done := true, calib_done := true,
          remaining := f :: rest }) ∧
    (∀ (fps : ℚ) (frames : List Frame), (run_setup fps frames).warmup_done = false →
      process_setup fps frames = Except.error SetupFailure.warmup_failed) ∧
    (∀ (fps : ℚ) (frames : List Frame), (run_setup fps frames).warmup_done = true →
      (run_setup fps frames).calib_done = false →
      process_setup fps frames = Except.error SetupFailure.calib_failed) ∧
    (∀ (fps : ℚ) (frames : List Frame), (run_setup fps frames).warmup_done = true →
      (run_setup fps frames).calib_done = true →
      process_setup fps frames =
        Except.ok ((run_setup fps frames).eye, (run_setup fps frames).posture)) := by
  refine ⟨fun es ps f rest => by simp [setup_loop], ?_, ?_, ?_⟩
  · intro fps frames h
    simp [process_setup, h]
  · intro fps frames hw hc
    simp [process_setup, hw, hc]
  · intro fps frames hw hc
    simp [process_setup, hw, hc]

/-! ## C9: degenerate eye geometry -/

/-- C9 — For every facial landmark set and every norm function: an eye whose
horizontal corner-to-corner distance is ≤ 0 contributes ratio 0 (the guarded
division never divides by the degenerate distance), and the frame ratio is
the mean of the two per-eye ratios.  All functions are total, so no error
can be raised. -/
theorem c9_degenerate_eye_geometry :
    ∀ (normF : ℚ × ℚ → ℚ) (lm : ℕ → ℚ × ℚ),
      (lm_dist normF lm 33 133 ≤ 0 → left_ear normF lm = 0) ∧
      (lm_dist normF lm 362 263 ≤ 0 → right_ear normF lm = 0) ∧
      ear_from_landmarks normF lm = (left_ear normF lm + right_ear normF lm) / 2 := by
  intro normF lm
  refine ⟨?_, ?_, rfl⟩
  · intro h
    unfold left_ear
    exact if_neg (not_lt.mpr h)
  · intro h
    unfold right_ear
    exact if_neg (not_lt.mpr h)

/-! ## Helper lemmas: posture scoring -/

lemma ema_alpha_val : EMA_ALPHA = 3 / 10 := by norm_num [EMA_ALPHA]

lemma ema_bounds (p r S : ℚ) (hp0 : 0 ≤ p) (hpS : p ≤ S) (hr0 : 0 ≤ r) (hrS : r ≤ S) :
    0 ≤ EMA_ALPHA * r + (1 - EMA_ALPHA) * p ∧ EMA_ALPHA * r + (1 - EMA_ALPHA) * p ≤ S := by
  rw [ema_alpha_val]
  constructor <;> nlinarith

lemma ema_between (p r : ℚ) :
    min p r ≤ EMA_ALPHA * r + (1 - EMA_ALPHA) * p ∧
    EMA_ALPHA * r + (1 - EMA_ALPHA) * p ≤ max p r := by
  rw [ema_alpha_val]
  rcases le_total p r with h | h
  · rw [min_eq_left h, max_eq_right h]
    constructor <;> nlinarith
  · rw [min_eq_right h, max_eq_left h]
    constructor <;> nlinarith

lemma primary_raw_bounds (expQ : ℚ → ℚ) (fp : FacePx) (pp : PosePx) (s : PostureState) :
    0 ≤ primary_raw expQ fp pp s ∧ primary_raw expQ fp pp s ≤ SCALE_FACTOR := by
  unfold primary_raw np_clip
  constructor
  · exact le_min (by norm_num [SCALE_FACTOR]) (le_max_left 0 _)
  · exact min_le_left _ _

lemma fallback_raw_bounds (d : ℚ) :
    0 ≤ (status_from_distance d).2.2 ∧ (status_from_distance d).2.2 ≤ SCALE_FACTOR := by
  unfold status_from_distance
  split_ifs <;> constructor <;> norm_num [SCALE_FACTOR]

lemma calibrate_smooth_eq (face? : Option FacePx) (pose? : Option PosePx) (s : PostureState) :
    ((calibrate_posture_frame face? pose? s).1).smooth_score = s.smooth_score := by
  unfold calibrate_posture_frame append_samples
  cases face? with
  | none => rfl
  | some fp =>
    cases pose? with
    | none => rfl
    | some pp =>
      dsimp only
      split_ifs <;> rfl

lemma process_posture_smooth_cases (expQ : ℚ → ℚ) (face? : Option FacePx)
    (pose? : Option PosePx) (s : PostureState) :
    ((process_posture_frame expQ face? pose? s).1.smooth_score = s.smooth_score) ∨
    (∃ r, posture_raw expQ face? pose? s = some r ∧
       (process_posture_frame expQ face? pose? s).1.smooth_score
         = EMA_ALPHA * r + (1 - EMA_ALPHA) * s.smooth_score ∧
       0 ≤ r ∧ r ≤ SCALE_FACTOR) := by
  unfold process_posture_frame posture_raw posture_tail fallback_update apply_ema
  cases face? with
  | none => left; rfl
  | some fp =>
    cases pose? with
    | none =>
      dsimp only
      by_cases h1 : MIN_FACE_PX ≤ face_h fp ∧ face_h fp ≤ MAX_FACE_PX
      · simp only [if_pos h1]
        cases hd : estimate_distance fp with
        | none => left; rfl
        | some d =>
          right
          exact ⟨_, rfl, rfl, fallback_raw_bounds d⟩
      · simp only [if_neg h1]
        left; trivial
    | some pp =>
      dsimp only
      by_cases h1 : MIN_FACE_PX ≤ face_h fp ∧ face_h fp ≤ MAX_FACE_PX
      · simp only [if_pos h1]
        by_cases h2 : MIN_SHOULDER_PX ≤ sh_w pp ∧ s.calibrated = true
        · simp only [if_pos h2]
          right
          exact ⟨_, rfl, rfl, primary_raw_bounds expQ fp pp s⟩
        · simp only [if_neg h2]
          cases hd : estimate_distance fp with
          | none =>
            left
            dsimp only
            try simp only [if_pos h1]
          | some d =>
            right
            exact ⟨_, rfl, rfl, fallback_raw_bounds d⟩
      · simp only [if_neg h1]
        left; trivial

lemma posture_call_step_bounds (expQ : ℚ → ℚ) (s : PostureState) (call : PostureCall)
    (h0 : 0 ≤ s.smooth_score) (h1 : s.smooth_score ≤ SCALE_FACTOR) :
    0 ≤ (posture_call_step expQ s call).smooth_score ∧
    (posture_call_step expQ s call).smooth_score ≤ SCALE_FACTOR := by
  cases call with
  | calib f p =>
    simp only [posture_call_step]
    rw [calibrate_smooth_eq]
    exact ⟨h0, h1⟩
  | score f p =>
    simp only [posture_call_step]
    rcases process_posture_smooth_cases expQ f p s with heq | ⟨r, _, heq, hr0, hrS⟩
    · rw [heq]; exact ⟨h0, h1⟩
    · rw [heq]; exact ema_bounds s.smooth_score r SCALE_FACTOR h0 h1 hr0 hrS

lemma run_posture_fold_bounds (expQ : ℚ → ℚ) (calls : List PostureCall) :
    ∀ s : PostureState, 0 ≤ s.smooth_score → s.smooth_score ≤ SCALE_FACTOR →
      0 ≤ (calls.foldl (posture_call_step expQ) s).smooth_score ∧
      (calls.foldl (posture_call_step expQ) s).smooth_score ≤ SCALE_FACTOR := by
  induction calls with
  | nil => intro s h0 h1; exact ⟨h0, h1⟩
  | cons c cs ih =>
    intro s h0 h1
    have hb := posture_call_step_bounds expQ s c h0 h1
    exact ih _ hb.1 hb.2

/-- C10 — Implicit bound on the smoothed posture score: starting from the
freshly initialized posture state (smoothedScore = 1.25) and applying any
sequence of calibration and scoring calls with any frame data and any
exponential model, the smoothed score stays in [0, SCALE_FACTOR] = [0, 2.5]:
every mutation is an EMA blend of the previous value with a raw value that
is either the clamped primary score or one of the fixed fallback scores 0.5
and 2.0, all of which lie in that interval. -/
theorem c10_smooth_score_bounds :
    ∀ (expQ : ℚ → ℚ) (calls : List PostureCall),
      0 ≤ (run_posture expQ calls).smooth_score ∧
      (run_posture expQ calls).smooth_score ≤ SCALE_FACTOR := by
  intro expQ calls
  refine run_posture_fold_bounds expQ calls init_posture_state ?_ ?_
  · show (0:ℚ) ≤ 1.25
    norm_num
  · show (1.25:ℚ) ≤ SCALE_FACTOR
    norm_num [SCALE_FACTOR]

/-- C6 — Whenever a posture scoring call produces a new status (the primary
face+shoulder branch or the distance-only fallback branch, i.e. the emitted
status is `Straight` or `Hunched`), the new smoothed score is exactly
`EMA_ALPHA · raw + (1 − EMA_ALPHA) · previous` for the branch's raw score,
with `EMA_ALPHA` strictly between 0 and 1, and therefore lies between the
previous smoothed value and that raw value. -/
theorem c6_ema_convex :
    ∀ (expQ : ℚ → ℚ) (face? : Option FacePx) (pose? : Option PosePx) (s : PostureState),
      ((process_posture_frame expQ face? pose? s).2.status = "Straight" ∨
       (process_posture_frame expQ face? pose? s).2.status = "Hunched") →
      0 < EMA_ALPHA ∧ EMA_ALPHA < 1 ∧
      ∃ r, posture_raw expQ face? pose? s = some r ∧
        (process_posture_frame expQ face? pose? s).1.smooth_score
          = EMA_ALPHA * r + (1 - EMA_ALPHA) * s.smooth_score ∧
        min s.smooth_score r ≤ (process_posture_frame expQ face? pose? s).1.smooth_score ∧
        (process_posture_frame expQ face? pose? s).1.smooth_score ≤ max s.smooth_score r := by
  intro expQ face? pose? s hst
  refine ⟨by rw [ema_alpha_val]; norm_num, by rw [ema_alpha_val]; norm_num, ?_⟩
  unfold process_posture_frame posture_tail fallback_update apply_ema at hst ⊢
  unfold posture_raw
  cases face? with
  | none =>
    dsimp only at hst
    exfalso
    rcases hst with h | h <;> exact absurd h (by decide)
  | some fp =>
    cases pose? with
    | none =>
      dsimp only at hst ⊢
      by_cases h1 : MIN_FACE_PX ≤ face_h fp ∧ face_h fp ≤ MAX_FACE_PX
      · simp only [if_pos h1] at hst ⊢
        cases hd : estimate_distance fp with
        | none =>
          rw [hd] at hst
          try dsimp only at hst
          exfalso
          rcases hst with h | h <;> exact absurd h (by decide)
        | some d =>
          exact ⟨_, rfl, rfl, (ema_between s.smooth_score _).1, (ema_between s.smooth_score _).2⟩
      · simp only [if_neg h1] at hst ⊢
        exfalso
        rcases hst with h | h <;> exact absurd h (by decide)
    | some pp =>
      dsimp only at hst ⊢
      by_cases h1 : MIN_FACE_PX ≤ face_h fp ∧ face_h fp ≤ MAX_FACE_PX
      · simp only [if_pos h1] at hst ⊢
        by_cases h2 : MIN_SHOULDER_PX ≤ sh_w pp ∧ s.calibrated = true
        · simp only [if_pos h2] at hst ⊢
          exact ⟨_, rfl, rfl, (ema_between s.smooth_score _).1, (ema_between s.smooth_score _).2⟩
        · simp only [if_neg h2] at hst ⊢
          cases hd : estimate_distance fp with
          | none =>
            rw [hd] at hst
            try dsimp only at hst
            try simp only [if_pos h1] at hst
            try dsimp only at hst
            exfalso
            rcases hst with h | h <;> exact absurd h (by decide)
          | some d =>
            exact ⟨_, rfl, rfl, (ema_between s.smooth_score _).1, (ema_between s.smooth_score _).2⟩
      · simp only [if_neg h1] at hst ⊢
        exfalso
        rcases hst with h | h <;> exact absurd h (by decide)

/-- C7 (amended) — Scoring calls with no usable signal do not perturb the
EMA: a frame with no facial keypoints reports `No face`; a frame whose face
height is outside the plausible pixel range reports `Too close/far`; and a
frame whose face is too small for the distance estimate reports
`Face too small` provided the calibrated primary branch does not apply (the
original claim omitted that proviso; with shoulders usable and the tracker
calibrated the primary branch scores such a frame and does move the EMA —
see the counterexample).  In all three cases `smooth_score` is exactly
unchanged. -/
theorem c7_diagnostic_frames_amended :
    ∀ (expQ : ℚ → ℚ) (face? : Option FacePx) (pose? : Option PosePx) (s : PostureState),
      (face? = none →
        (process_posture_frame expQ face? pose? s).2.status = "No face" ∧
        (process_posture_frame expQ face? pose? s).1.smooth_score = s.smooth_score) ∧
      (∀ fp, face? = some fp → ¬(MIN_FACE_PX ≤ face_h fp ∧ face_h fp ≤ MAX_FACE_PX) →
        (process_posture_frame expQ face? pose? s).2.status = "Too close/far" ∧
        (process_posture_frame expQ face? pose? s).1.smooth_score = s.smooth_score) ∧
      (∀ fp, face? = some fp → (MIN_FACE_PX ≤ face_h fp ∧ face_h fp ≤ MAX_FACE_PX) →
        estimate_distance fp = none →
        ¬(∃ pp, pose? = some pp ∧ MIN_SHOULDER_PX ≤ sh_w pp ∧ s.calibrated = true) →
        (process_posture_frame expQ face? pose? s).2.status = "Face too small" ∧
        (process_posture_frame expQ face? pose? s).1.smooth_score = s.smooth_score) := by
  intro expQ face? pose? s
  refine ⟨?_, ?_, ?_⟩
  · intro h
    subst h
    exact ⟨rfl, rfl⟩
  · intro fp hf hrange
    subst hf
    unfold process_posture_frame posture_tail
    cases pose? with
    | none =>
      dsimp only
      simp only [if_neg hrange]
      constructor <;> trivial
    | some pp =>
      dsimp only
      simp only [if_neg hrange]
      constructor <;> trivial
  · intro fp hf hrange hd hnot
    subst hf
    unfold process_posture_frame posture_tail
    cases pose? with
    | none =>
      dsimp only
      simp only [if_pos hrange, hd]
      constructor <;> trivial
    | some pp =>
      have h2 : ¬(MIN_SHOULDER_PX ≤ sh_w pp ∧ s.calibrated = true) :=
        fun hc => hnot ⟨pp, rfl, hc⟩
      dsimp only
      simp only [if_pos hrange, if_neg h2, hd]
      constructor <;> trivial

/-! ## Helper lemmas: eye-tracker steps and runs -/

lemma run_ears_nil (s : EyeState) : run_ears s [] = s := rfl

lemma run_ears_cons (s : EyeState) (e : ℚ) (es : List ℚ) :
    run_ears s (e :: es) = run_ears ((process_eye_frame (some e) s).1) es := rfl

lemma run_ears_append (s : EyeState) (l1 l2 : List ℚ) :
    run_ears s (l1 ++ l2) = run_ears (run_ears s l1) l2 := by
  unfold run_ears
  exact List.foldl_append _ _ _ _

lemma incr_list_append (s : EyeState) (l1 l2 : List ℚ) :
    incr_list s (l1 ++ l2) = incr_list s l1 ++ incr_list (run_ears s l1) l2 := by
  induction l1 generalizing s with
  | nil => rfl
  | cons e es ih =>
    show _ :: incr_list _ (es ++ l2) = _
    rw [ih, run_ears_cons]
    rfl

lemma incr_total_append (s : EyeState) (l1 l2 : List ℚ) :
    incr_total s (l1 ++ l2) = incr_total s l1 + incr_total (run_ears s l1) l2 := by
  unfold incr_total
  rw [incr_list_append, List.sum_append]

lemma incr_total_cons (s : EyeState) (e : ℚ) (es : List ℚ) :
    incr_total s (e :: es) =
      (process_eye_frame (some e) s).2.blink_increment +
        incr_total ((process_eye_frame (some e) s).1) es := by
  show ((process_eye_frame (some e) s).2.blink_increment ::
      incr_list ((process_eye_frame (some e) s).1) es).sum = _
  rw [List.sum_cons]
  rfl

lemma pef_warm_fst (s : EyeState) (ear : ℚ) (h : s.warmed_up = true) :
    (process_eye_frame (some ear) s).1 = (combined_step ear s).1 := by
  simp [process_eye_frame, h, MODE]

lemma pef_warm_incr (s : EyeState) (ear : ℚ) (h : s.warmed_up = true) :
    (process_eye_frame (some ear) s).2.blink_increment = (combined_step ear s).2 := by
  simp [process_eye_frame, h, MODE]

lemma cs_open_below (s : EyeState) (ear : ℚ) (hc : s.eyes_closed = false)
    (hlt : ear < close_thresh s) :
    combined_step ear s =
      (if s.consec_closed ≤ s.closed_counter + 1 then
        { s with closed_counter := s.closed_counter + 1, open_counter := 0, eyes_closed := true }
      else { s with closed_counter := s.closed_counter + 1, open_counter := 0 }, 0) := by
  unfold combined_step
  rw [if_pos hc, if_pos hlt]

lemma cs_open_not_below (s : EyeState) (ear : ℚ) (hc : s.eyes_closed = false)
    (hnb : ¬ ear < close_thresh s) :
    combined_step ear s =
      (if open_thresh s < ear then
        { s with closed_counter := 0,
                 ear_history := deque_append s.history_frames s.ear_history ear }
      else { s with closed_counter := 0 }, 0) := by
  unfold combined_step
  rw [if_pos hc, if_neg hnb]

lemma cs_closed_not_above (s : EyeState) (ear : ℚ) (hc : s.eyes_closed = true)
    (hno : ¬ open_thresh s < ear) :
    combined_step ear s = ({ s with open_counter := 0 }, 0) := by
  unfold combined_step
  rw [if_neg (by simp [hc]), if_neg hno]

lemma cs_closed_above (s : EyeState) (ear : ℚ) (hc : s.eyes_closed = true)
    (ha : open_thresh s < ear) :
    combined_step ear s =
      (if s.consec_open ≤ s.open_counter + 1 then
        ({ s with open_counter := s.open_counter + 1, closed_counter := 0,
                  eyes_closed := false, blink_count := s.blink_count + 1,
                  ear_history := deque_append s.history_frames s.ear_history ear }, 1)
      else ({ s with open_counter := s.open_counter + 1, closed_counter := 0 }, 0)) := by
  unfold combined_step
  rw [if_neg (by simp [hc]), if_pos ha]

lemma mem_insert_le {α : Type} (le : α → α → Bool) (x y : α) (l : List α) :
    y ∈ insert_le le x l ↔ y = x ∨ y ∈ l := by
  induction l with
  | nil => simp [insert_le]
  | cons z zs ih =>
    unfold insert_le
    split_ifs with h
    · constructor
      · intro hm
        rcases List.mem_cons.mp hm with h1 | h1
        · exact Or.inl h1
        · exact Or.inr h1
      · intro hm
        rcases hm with h1 | h1
        · exact List.mem_cons.mpr (Or.inl h1)
        · exact List.mem_cons.mpr (Or.inr h1)
    · constructor
      · intro hm
        rcases List.mem_cons.mp hm with h1 | h1
        · exact Or.inr (List.mem_cons.mpr (Or.inl h1))
        · rcases (ih).mp h1 with h2 | h2
          · exact Or.inl h2
          · exact Or.inr (List.mem_cons.mpr (Or.inr h2))
      · intro hm
        rcases hm with h1 | h1
        · exact List.mem_cons.mpr (Or.inr (ih.mpr (Or.inl h1)))
        · rcases List.mem_cons.mp h1 with h2 | h2
          · exact List.mem_cons.mpr (Or.inl h2)
          · exact List.mem_cons.mpr (Or.inr (ih.mpr (Or.inr h2)))

lemma mem_sort_le {α : Type} (le : α → α → Bool) (y : α) (l : List α) :
    y ∈ sort_le le l ↔ y ∈ l := by
  induction l with
  | nil => simp [sort_le]
  | cons z zs ih =>
    unfold sort_le
    rw [mem_insert_le]
    simp [ih]

lemma length_insert_le {α : Type} (le : α → α → Bool) (x : α) (l : List α) :
    (insert_le le x l).length = l.length + 1 := by
  induction l with
  | nil => rfl
  | cons z zs ih =>
    unfold insert_le
    split_ifs with h
    · rfl
    · simp [ih]

lemma length_sort_le {α : Type} (le : α → α → Bool) (l : List α) :
    (sort_le le l).length = l.length := by
  induction l with
  | nil => rfl
  | cons z zs ih =>
    unfold sort_le
    rw [length_insert_le, ih]
    rfl

lemma getD_mem_of_lt {α : Type} (l : List α) (n : ℕ) (d : α) (h : n < l.length) :
    l.getD n d ∈ l := by
  rw [List.getD_eq_getElem l d h]
  exact List.getElem_mem h

lemma medianQ_nonneg (l : List ℚ) (h : ∀ x ∈ l, 0 ≤ x) : 0 ≤ medianQ l := by
  unfold medianQ
  dsimp only
  have hmem : ∀ x ∈ sortQ l, 0 ≤ x := by
    intro x hx
    exact h x ((mem_sort_le _ x l).mp hx)
  have hlen : (sortQ l).length = l.length := length_sort_le _ l
  split_ifs with h0 h1
  · exact le_refl 0
  · apply hmem
    apply getD_mem_of_lt
    omega
  · have ha : (sortQ l).getD ((sortQ l).length / 2 - 1) 0 ∈ sortQ l := by
      apply getD_mem_of_lt
      omega
    have hb : (sortQ l).getD ((sortQ l).length / 2) 0 ∈ sortQ l := by
      apply getD_mem_of_lt
      omega
    have := hmem _ ha
    have := hmem _ hb
    linarith

lemma thresh_order (s : EyeState) (h : hist_nonneg s) :
    0 ≤ close_thresh s ∧ close_thresh s ≤ open_thresh s ∧ 0 ≤ open_thresh s := by
  have hm : 0 ≤ open_median s := medianQ_nonneg s.ear_history h
  have hc : CLOSE_THRESH_FRAC = 13/20 := by norm_num [CLOSE_THRESH_FRAC]
  have ho : OPEN_THRESH_FRAC = 3/4 := by norm_num [OPEN_THRESH_FRAC]
  unfold close_thresh open_thresh
  rw [hc, ho]
  refine ⟨by nlinarith, by nlinarith, by nlinarith⟩

lemma deque_append_mem (m : ℕ) (l : List ℚ) (a x : ℚ) (h : x ∈ deque_append m l a) :
    x ∈ l ∨ x = a := by
  unfold deque_append at h
  dsimp only at h
  have hx : x ∈ l ++ [a] := by
    split_ifs at h with h1
    · exact List.mem_of_mem_drop h
    · exact h
  rcases List.mem_append.mp hx with h2 | h2
  · exact Or.inl h2
  · exact Or.inr (List.mem_singleton.mp h2)

lemma all_below_close_cons (s : EyeState) (e : ℚ) (es : List ℚ)
    (h : all_below_close s (e :: es) = true) :
    e < close_thresh s ∧ all_below_close ((process_eye_frame (some e) s).1) es = true := by
  unfold all_below_close at h
  simp only [Bool.and_eq_true, decide_eq_true_eq] at h
  exact h

lemma all_above_open_cons (s : EyeState) (e : ℚ) (es : List ℚ)
    (h : all_above_open s (e :: es) = true) :
    open_thresh s < e ∧ all_above_open ((process_eye_frame (some e) s).1) es = true := by
  unfold all_above_open at h
  simp only [Bool.and_eq_true, decide_eq_true_eq] at h
  exact h

lemma all_at_or_above_close_cons (s : EyeState) (e : ℚ) (es : List ℚ)
    (h : all_at_or_above_close s (e :: es) = true) :
    close_thresh s ≤ e ∧ all_at_or_above_close ((process_eye_frame (some e) s).1) es = true := by
  unfold all_at_or_above_close at h
  simp only [Bool.and_eq_true, decide_eq_true_eq] at h
  exact h

/-- Frames below the close threshold processed while the eyes are closed:
the state only has its `open_counter` reset, and no increment is emitted. -/
lemma below_closed_run (l : List ℚ) : ∀ s : EyeState, s.warmed_up = true →
    s.eyes_closed = true → hist_nonneg s → all_below_close s l = true →
    (run_ears s l).ear_history = s.ear_history ∧
    (run_ears s l).blink_count = s.blink_count ∧
    (run_ears s l).eyes_closed = true ∧
    (run_ears s l).warmed_up = true ∧
    (run_ears s l).closed_counter = s.closed_counter ∧
    (run_ears s l).consec_closed = s.consec_closed ∧
    (run_ears s l).consec_open = s.consec_open ∧
    (run_ears s l).open_counter = (if l.isEmpty then s.open_counter else 0) ∧
    incr_total s l = 0 := by
  induction l with
  | nil =>
    intro s hw hc hn hb
    exact ⟨rfl, rfl, hc, hw, rfl, rfl, rfl, rfl, rfl⟩
  | cons e es ih =>
    intro s hw hc hn hb
    obtain ⟨hlt, hrest⟩ := all_below_close_cons s e es hb
    have ht := thresh_order s hn
    have hno : ¬ open_thresh s < e := by
      push_neg
      linarith [ht.1, ht.2.1]
    have hstep : (process_eye_frame (some e) s).1 = { s with open_counter := 0 } := by
      rw [pef_warm_fst s e hw, cs_closed_not_above s e hc hno]
    have hincr : (process_eye_frame (some e) s).2.blink_increment = 0 := by
      rw [pef_warm_incr s e hw, cs_closed_not_above s e hc hno]
    rw [hstep] at hrest
    rw [run_ears_cons, incr_total_cons, hstep, hincr]
    obtain ⟨a1, a2, a3, a4, a5, a6, a7, a8, a9⟩ :=
      ih { s with open_counter := 0 } hw hc hn hrest
    refine ⟨a1, a2, a3, a4, a5, a6, a7, ?_, by omega⟩
    rw [a8]
    split_ifs <;> simp_all

/-- Frames below the close threshold processed while the eyes are open: the
history and blink count are unchanged, no increment is emitted, the closed
streak grows by the number of frames, and the eyes close exactly when the
streak reaches `consec_closed`. -/
lemma below_open_run (l : List ℚ) : ∀ s : EyeState, s.warmed_up = true →
    s.eyes_closed = false → hist_nonneg s → all_below_close s l = true →
    (run_ears s l).ear_history = s.ear_history ∧
    (run_ears s l).blink_count = s.blink_count ∧
    (run_ears s l).warmed_up = true ∧
    (run_ears s l).consec_closed = s.consec_closed ∧
    (run_ears s l).consec_open = s.consec_open ∧
    incr_total s l = 0 ∧
    (s.consec_closed ≤ s.closed_counter + l.length → l ≠ [] →
      (run_ears s l).eyes_closed = true ∧ (run_ears s l).open_counter = 0) ∧
    (s.closed_counter + l.length < s.consec_closed →
      (run_ears s l).eyes_closed = false ∧
      (run_ears s l).closed_counter = s.closed_counter + l.length ∧
      (run_ears s l).open_counter = (if l.isEmpty then s.open_counter else 0)) := by
  induction l with
  | nil =>
    intro s hw hc hn hb
    refine ⟨rfl, rfl, hw, rfl, rfl, rfl, ?_, ?_⟩
    · intro _ hne
      exact absurd rfl hne
    · intro _
      exact ⟨hc, by rw [run_ears_nil]; simp, rfl⟩
  | cons e es ih =>
    intro s hw hc hn hb
    obtain ⟨hlt, hrest⟩ := all_below_close_cons s e es hb
    have hincr : (process_eye_frame (some e) s).2.blink_increment = 0 := by
      rw [pef_warm_incr s e hw, cs_open_below s e hc hlt]
    by_cases hclose : s.consec_closed ≤ s.closed_counter + 1
    · -- this frame closes the eyes
      have hstep : (process_eye_frame (some e) s).1 =
          { s with closed_counter := s.closed_counter + 1, open_counter := 0,
                   eyes_closed := true } := by
        rw [pef_warm_fst s e hw, cs_open_below s e hc hlt]
        exact congrArg Prod.fst (congrArg (fun z => (z, 0)) (if_pos hclose))
      rw [hstep] at hrest
      rw [run_ears_cons, incr_total_cons, hstep, hincr]
      obtain ⟨a1, a2, a3, a4, a5, a6, a7, a8, a9⟩ :=
        below_closed_run es
          { s with closed_counter := s.closed_counter + 1, open_counter := 0,
                   eyes_closed := true }
          hw rfl hn hrest
      refine ⟨a1, a2, a4, a6, a7, by omega, ?_, ?_⟩
      · intro _ _
        refine ⟨a3, ?_⟩
        rw [a8]
        split_ifs <;> simp_all
      · intro hcon
        exfalso
        simp only [List.length_cons] at hcon
        omega
    · -- the streak grows but stays below the debounce count
      have hstep : (process_eye_frame (some e) s).1 =
          { s with closed_counter := s.closed_counter + 1, open_counter := 0 } := by
        rw [pef_warm_fst s e hw, cs_open_below s e hc hlt]
        exact congrArg Prod.fst (congrArg (fun z => (z, 0)) (if_neg hclose))
      rw [hstep] at hrest
      rw [run_ears_cons, incr_total_cons, hstep, hincr]
      obtain ⟨a1, a2, a3, a4, a5, a6, a7, a8⟩ :=
        ih { s with closed_counter := s.closed_counter + 1, open_counter := 0 } hw hc hn hrest
      refine ⟨a1, a2, a3, a4, a5, by omega, ?_, ?_⟩
      · intro hle _
        simp only [List.length_cons] at hle
        rcases es with _ | ⟨e2, es2⟩
        · exfalso
          simp at hle
          omega
        · refine a7 ?_ (by simp)
          show s.consec_closed ≤ s.closed_counter + 1 + (e2 :: es2).length
          omega
      · intro hcon
        simp only [List.length_cons] at hcon
        have hcon2 : s.closed_counter + 1 + es.length < s.consec_closed := by omega
        obtain ⟨b1, b2, b3⟩ := a8 hcon2
        refine ⟨b1, ?_, ?_⟩
        · rw [b2]
          simp only [List.length_cons]
          omega
        · rw [b3]
          split_ifs <;> simp_all

/-- Frames at or above the close threshold processed while the eyes are
open: the eyes stay open and no increment is ever emitted (the open branch
of the combined policy cannot fire a blink). -/
lemma at_or_above_open_run (l : List ℚ) : ∀ s : EyeState, s.warmed_up = true →
    s.eyes_closed = false → all_at_or_above_close s l = true →
    (run_ears s l).eyes_closed = false ∧ (run_ears s l).warmed_up = true ∧
    (run_ears s l).blink_count = s.blink_count ∧ incr_total s l = 0 := by
  induction l with
  | nil =>
    intro s hw hc _
    exact ⟨hc, hw, rfl, rfl⟩
  | cons e es ih =>
    intro s hw hc hb
    obtain ⟨hge, hrest⟩ := all_at_or_above_close_cons s e es hb
    have hnb : ¬ e < close_thresh s := not_lt.mpr hge
    have hincr : (process_eye_frame (some e) s).2.blink_increment = 0 := by
      rw [pef_warm_incr s e hw, cs_open_not_below s e hc hnb]
    by_cases ha : open_thresh s < e
    · have hstep : (process_eye_frame (some e) s).1 =
          { s with closed_counter := 0,
                   ear_history := deque_append s.history_frames s.ear_history e } := by
        rw [pef_warm_fst s e hw, cs_open_not_below s e hc hnb]
        exact congrArg Prod.fst (congrArg (fun z => (z, 0)) (if_pos ha))
      rw [hstep] at hrest
      rw [run_ears_cons, incr_total_cons, hstep, hincr]
      obtain ⟨a1, a2, a3, a4⟩ :=
        ih { s with closed_counter := 0,
                    ear_history := deque_append s.history_frames s.ear_history e }
          hw hc hrest
      exact ⟨a1, a2, a3, by omega⟩
    · have hstep : (process_eye_frame (some e) s).1 = { s with closed_counter := 0 } := by
        rw [pef_warm_fst s e hw, cs_open_not_below s e hc hnb]
        exact congrArg Prod.fst (congrArg (fun z => (z, 0)) (if_neg ha))
      rw [hstep] at hrest
      rw [run_ears_cons, incr_total_cons, hstep, hincr]
      obtain ⟨a1, a2, a3, a4⟩ := ih { s with closed_counter := 0 } hw hc hrest
      exact ⟨a1, a2, a3, by omega⟩

/-- Frames above the open threshold processed while the eyes are open, for a
state whose stored ratios are nonnegative: the eyes stay open, no increment
is emitted, and the blink count is unchanged. -/
lemma above_open_run (l : List ℚ) : ∀ s : EyeState, s.warmed_up = true →
    s.eyes_closed = false → hist_nonneg s → all_above_open s l = true →
    (run_ears s l).eyes_closed = false ∧ (run_ears s l).warmed_up = true ∧
    (run_ears s l).blink_count = s.blink_count ∧ incr_total s l = 0 := by
  induction l with
  | nil =>
    intro s hw hc _ _
    exact ⟨hc, hw, rfl, rfl⟩
  | cons e es ih =>
    intro s hw hc hn hb
    obtain ⟨ha, hrest⟩ := all_above_open_cons s e es hb
    have ht := thresh_order s hn
    have hnb : ¬ e < close_thresh s := by
      push_neg
      linarith [ht.2.1]
    have hincr : (process_eye_frame (some e) s).2.blink_increment = 0 := by
      rw [pef_warm_incr s e hw, cs_open_not_below s e hc hnb]
    have hstep : (process_eye_frame (some e) s).1 =
        { s with closed_counter := 0,
                 ear_history := deque_append s.history_frames s.ear_history e } := by
      rw [pef_warm_fst s e hw, cs_open_not_below s e hc hnb]
      exact congrArg Prod.fst (congrArg (fun z => (z, 0)) (if_pos ha))
    have hn2 : hist_nonneg
        { s with closed_counter := 0,
                 ear_history := deque_append s.history_frames s.ear_history e } := by
      intro x hx
      rcases deque_append_mem s.history_frames s.ear_history e x hx with hmem | heq
      · exact hn x hmem
      · subst heq
        linarith [ht.2.2]
    rw [hstep] at hrest
    rw [run_ears_cons, incr_total_cons, hstep, hincr]
    obtain ⟨a1, a2, a3, a4⟩ :=
      ih { s with closed_counter := 0,
                  ear_history := deque_append s.history_frames s.ear_history e }
        hw hc hn2 hrest
    exact ⟨a1, a2, a3, by omega⟩

/-- Frames above the open threshold processed while the eyes are closed and
the open streak is still below the debounce count: exactly one blink fires
(when the streak reaches `consec_open`), incrementing the blink count by
exactly one, after which the eyes are open. -/
lemma above_closed_run (l : List ℚ) : ∀ s : EyeState, s.warmed_up = true →
    s.eyes_closed = true → hist_nonneg s → all_above_open s l = true →
    s.open_counter < s.consec_open → s.consec_open ≤ s.open_counter + l.length →
    incr_total s l = 1 ∧ (run_ears s l).blink_count = s.blink_count + 1 ∧
    (run_ears s l).eyes_closed = false ∧ (run_ears s l).warmed_up = true := by
  induction l with
  | nil =>
    intro s _ _ _ _ hlt hle
    exfalso
    simp at hle
    omega
  | cons e es ih =>
    intro s hw hc hn hb hlt hle
    obtain ⟨ha, hrest⟩ := all_above_open_cons s e es hb
    have ht := thresh_order s hn
    by_cases hfire : s.consec_open ≤ s.open_counter + 1
    · -- the blink fires on this frame
      have hstep : (process_eye_frame (some e) s).1 =
          { s with open_counter := s.open_counter + 1, closed_counter := 0,
                   eyes_closed := false, blink_count := s.blink_count + 1,
                   ear_history := deque_append s.history_frames s.ear_history e } := by
        rw [pef_warm_fst s e hw, cs_closed_above s e hc ha]
        rw [if_pos hfire]
      have hincr : (process_eye_frame (some e) s).2.blink_increment = 1 := by
        rw [pef_warm_incr s e hw, cs_closed_above s e hc ha]
        rw [if_pos hfire]
      have hn2 : hist_nonneg
          { s with open_counter := s.open_counter + 1, closed_counter := 0,
                   eyes_closed := false, blink_count := s.blink_count + 1,
                   ear_history := deque_append s.history_frames s.ear_history e } := by
        intro x hx
        rcases deque_append_mem s.history_frames s.ear_history e x hx with hmem | heq
        · exact hn x hmem
        · subst heq
          linarith [ht.2.2]
      rw [hstep] at hrest
      rw [run_ears_cons, incr_total_cons, hstep, hincr]
      obtain ⟨a1, a2, a3, a4⟩ := above_open_run es
        { s with open_counter := s.open_counter + 1, closed_counter := 0,
                 eyes_closed := false, blink_count := s.blink_count + 1,
                 ear_history := deque_append s.history_frames s.ear_history e }
        hw rfl hn2 hrest
      exact ⟨by omega, by rw [a3], a1, a2⟩
    · -- debounce continues
      have hstep : (process_eye_frame (some e) s).1 =
          { s with open_counter := s.open_counter + 1, closed_counter := 0 } := by
        rw [pef_warm_fst s e hw, cs_closed_above s e hc ha]
        rw [if_neg hfire]
      have hincr : (process_eye_frame (some e) s).2.blink_increment = 0 := by
        rw [pef_warm_incr s e hw, cs_closed_above s e hc ha]
        rw [if_neg hfire]
      rw [hstep] at hrest
      rw [run_ears_cons, incr_total_cons, hstep, hincr]
      obtain ⟨a1, a2, a3, a4⟩ :=
        ih { s with open_counter := s.open_counter + 1, closed_counter := 0 }
          hw hc hn hrest (by simp; omega)
          (by simp only [List.length_cons] at hle; simpa using by omega)
      exact ⟨by omega, a2, a3, a4⟩

lemma count_one_of_sum_zero (l : List ℕ) (h : l.sum = 0) : l.count 1 = 0 := by
  induction l with
  | nil => rfl
  | cons a t ih =>
    simp only [List.sum_cons] at h
    have ha : a = 0 := by omega
    have ht : t.sum = 0 := by omega
    subst ha
    simp [List.count_cons, ih ht]

lemma count_one_of_sum_one (l : List ℕ) (h : l.sum = 1) : l.count 1 = 1 := by
  induction l with
  | nil => simp at h
  | cons a t ih =>
    simp only [List.sum_cons] at h
    rcases Nat.eq_zero_or_pos a with ha | ha
    · subst ha
      have ht : t.sum = 1 := by omega
      simp [List.count_cons, ih ht]
    · have ha1 : a = 1 := by omega
      have ht : t.sum = 0 := by omega
      subst ha1
      simp [List.count_cons, count_one_of_sum_zero t ht]

/-- C5 (amended) — Combined-policy blink counting, for a warmed-up tracker
state with eyes open, a zero closed streak (as when the state is freshly
warmed up; the original claim omitted that condition — with a nonzero
residual closed streak a sub-debounce dip can still close the eyes and lead
to an increment, see the counterexample), nonnegative stored aperture ratios
(every stored ratio is an output of the nonnegative aperture computation)
and the derived debounce constants ≥ 1 (as `init_eye_state` constructs
them); thresholds are those of each frame's current state.  Part 1: ratios
below the close threshold for at least `consec_closed` frames followed by
ratios above the open threshold for at least `consec_open` frames yield
exactly one blink increment in total, exactly one frame with increment 1,
and grow `blink_count` by exactly 1.  Part 2: a dip shorter than
`consec_closed` followed by ratios at or above the close threshold yields
zero increments. -/
theorem c5_combined_blink_amended :
    ∀ (s : EyeState), s.warmed_up = true → s.eyes_closed = false →
      s.closed_counter = 0 → hist_nonneg s →
      1 ≤ s.consec_closed → 1 ≤ s.consec_open →
      (∀ l1 l2 : List ℚ, all_below_close s l1 = true → s.consec_closed ≤ l1.length →
        all_above_open (run_ears s l1) l2 = true → s.consec_open ≤ l2.length →
        incr_total s (l1 ++ l2) = 1 ∧
        (incr_list s (l1 ++ l2)).count 1 = 1 ∧
        (run_ears s (l1 ++ l2)).blink_count = s.blink_count + 1) ∧
      (∀ d rest : List ℚ, all_below_close s d = true → d.length < s.consec_closed →
        all_at_or_above_close (run_ears s d) rest = true →
        incr_total s (d ++ rest) = 0) := by
  intro s hw hc hcc hn h1 h2
  constructor
  · intro l1 l2 hb1 hlen1 hb2 hlen2
    obtain ⟨a1, a2, a3, a4, a5, a6, a7, a8⟩ := below_open_run l1 s hw hc hn hb1
    have hne : l1 ≠ [] := by
      intro hcontra
      subst hcontra
      simp at hlen1
      omega
    obtain ⟨c1, c2⟩ := a7 (by omega) hne
    have hn1 : hist_nonneg (run_ears s l1) := by
      unfold hist_nonneg
      rw [a1]
      exact hn
    obtain ⟨d1, d2, d3, d4⟩ := above_closed_run l2 (run_ears s l1) a3 c1 hn1 hb2
      (by rw [c2, a5]; omega) (by rw [c2, a5]; omega)
    have hsum : incr_total s (l1 ++ l2) = 1 := by
      rw [incr_total_append, a6, d1]
    refine ⟨hsum, count_one_of_sum_one _ hsum, ?_⟩
    rw [run_ears_append, d2, a2]
  · intro d rest hbd hdlen hba
    obtain ⟨a1, a2, a3, a4, a5, a6, a7, a8⟩ := below_open_run d s hw hc hn hbd
    obtain ⟨b1, b2, b3⟩ := a8 (by omega)
    obtain ⟨e1, e2, e3, e4⟩ := at_or_above_open_run rest (run_ears s d) a3 b1 hba
    rw [incr_total_append, a6, e4]

/-! ## Helper lemmas: warm-up -/

lemma deque_append_length_le (m : ℕ) (l : List ℚ) (x : ℚ) (h : l.length + 1 ≤ m) :
    (deque_append m l x).length = l.length + 1 := by
  unfold deque_append
  dsimp only
  rw [if_neg]
  · simp
  · simp only [List.length_append, List.length_singleton]
    omega

lemma pef_warmup_fst (s : EyeState) (ear : ℚ) (h : s.warmed_up = false) :
    (process_eye_frame (some ear) s).1 =
      if s.min_history ≤ (deque_append s.history_frames s.ear_history ear).length then
        { s with ear_history := deque_append s.history_frames s.ear_history ear,
                 warmed_up := true }
      else { s with ear_history := deque_append s.history_frames s.ear_history ear } := by
  simp only [process_eye_frame, h, eq_self_iff_true, if_true]
  try dsimp only
  split_ifs <;> rfl

lemma combined_step_warm (e : ℚ) (s : EyeState) :
    ((combined_step e s).1).warmed_up = s.warmed_up := by
  unfold combined_step
  dsimp only
  split_ifs <;> rfl

lemma warmup_run (l : List ℚ) : ∀ s : EyeState, s.warmed_up = false →
    s.min_history ≤ s.history_frames →
    s.ear_history.length < s.min_history →
    s.ear_history.length + l.length ≤ s.min_history →
    (run_ears s l).warmed_up = decide (s.min_history ≤ s.ear_history.length + l.length) ∧
    (run_ears s l).ear_history.length = s.ear_history.length + l.length := by
  induction l with
  | nil =>
    intro s hw hmin hlt hsum
    have hdec : ¬ (s.min_history ≤ s.ear_history.length + ([] : List ℚ).length) := by
      simp only [List.length_nil, Nat.add_zero]
      omega
    constructor
    · rw [run_ears_nil, hw]
      exact (decide_eq_false hdec).symm
    · rw [run_ears_nil]
      simp
  | cons e es ih =>
    intro s hw hmin hlt hsum
    have hlen1 : (deque_append s.history_frames s.ear_history e).length
        = s.ear_history.length + 1 := by
      apply deque_append_length_le
      simp only [List.length_cons] at hsum
      omega
    have hcount : s.ear_history.length + (e :: es).length
        = s.ear_history.length + 1 + es.length := by
      simp only [List.length_cons]
      omega
    by_cases hcheck : s.min_history ≤ (deque_append s.history_frames s.ear_history e).length
    · -- warm-up completes on this frame
      have heq : s.min_history = s.ear_history.length + 1 := by
        rw [hlen1] at hcheck
        simp only [List.length_cons] at hsum
        omega
      have hes : es = [] := by
        have : es.length = 0 := by
          simp only [List.length_cons] at hsum
          omega
        exact List.length_eq_zero.mp this
      subst hes
      rw [run_ears_cons, pef_warmup_fst s e hw, if_pos hcheck]
      constructor
      · rw [run_ears_nil]
        have : s.min_history ≤ s.ear_history.length + [e].length := by
          simp only [List.length_singleton]
          omega
        exact (decide_eq_true this).symm
      · rw [run_ears_nil]
        show (deque_append s.history_frames s.ear_history e).length = _
        rw [hlen1]
        simp
    · -- still warming up
      rw [run_ears_cons, pef_warmup_fst s e hw, if_neg hcheck]
      rw [hlen1] at hcheck
      have ih2 := ih { s with ear_history := deque_append s.history_frames s.ear_history e }
        hw hmin
        (by
          show (deque_append s.history_frames s.ear_history e).length < s.min_history
          omega)
        (by
          show (deque_append s.history_frames s.ear_history e).length + es.length ≤ s.min_history
          rw [hlen1]
          simp only [List.length_cons] at hsum
          omega)
      obtain ⟨i1, i2⟩ := ih2
      constructor
      · rw [i1]
        show decide (s.min_history ≤ (deque_append s.history_frames s.ear_history e).length + es.length) = _
        rw [hlen1, hcount]
      · rw [i2]
        show (deque_append s.history_frames s.ear_history e).length + es.length = _
        rw [hlen1, hcount]

/-- C4 (amended) — Warm-up completion, for a freshly initialized eye tracker
with fps ≥ 5 (for fps < 5 the code sets `min_history = 10` above
`history_frames`, whose eviction cap then prevents the history from ever
reaching `min_history`, so warm-up never completes — see the
counterexample): feeding exactly `min_history` frames with valid facial
keypoints makes `warmed_up` true exactly on the last of them and on no
earlier prefix; and within the step function `warmed_up` never reverts from
true to false. -/
theorem c4_warmup_amended :
    (∀ (fps : ℚ), 5 ≤ fps → ∀ (l : List ℚ), l.length = (init_eye_state fps).min_history →
      ∀ j, j ≤ l.length →
        ((run_ears (init_eye_state fps) (l.take j)).warmed_up = true ↔
          j = (init_eye_state fps).min_history)) ∧
    (∀ (e? : Option ℚ) (s : EyeState), s.warmed_up = true →
      ((process_eye_frame e? s).1).warmed_up = true) := by
  constructor
  · intro fps hfps l hlen j hj
    have hm1 : 1 ≤ (init_eye_state fps).min_history := (init_consts_ge_one fps).2.1
    have htl : (l.take j).length = j := by
      rw [List.length_take]
      omega
    have h0 := warmup_run (l.take j) (init_eye_state fps) rfl
      (init_min_le_history fps hfps)
      (by show (0:ℕ) < _; omega)
      (by
        show (0:ℕ) + (l.take j).length ≤ _
        rw [htl]
        omega)
    obtain ⟨w1, _⟩ := h0
    rw [w1, htl]
    show decide ((init_eye_state fps).min_history ≤ 0 + j) = true ↔ _
    rw [decide_eq_true_eq]
    omega
  · intro e? s h
    cases e? with
    | none => exact h
    | some e =>
      rw [pef_warm_fst s e h, combined_step_warm, h]

/-! ## Helper lemmas: evaluation -/

lemma nat_ratio_bounds (a b : ℕ) (hab : a ≤ b) (hb : b ≠ 0) :
    (0:ℚ) ≤ (a:ℚ) / (b:ℚ) ∧ (a:ℚ) / (b:ℚ) ≤ 1 := by
  have hbpos : (0:ℚ) < (b:ℚ) := by exact_mod_cast Nat.pos_of_ne_zero hb
  constructor
  · positivity
  · rw [div_le_one hbpos]
    exact_mod_cast hab

lemma f1_class_bounds (c : String) (yt yp : List String) :
    0 ≤ f1_class c yt yp ∧ f1_class c yt yp ≤ 1 := by
  unfold f1_class
  dsimp only
  split_ifs with h
  · norm_num
  · exact nat_ratio_bounds _ _ (by omega) h

lemma macro_f1_bounds (yt yp : List String) (h : yt ≠ []) :
    0 ≤ macro_f1 yt yp ∧ macro_f1 yt yp ≤ 1 := by
  unfold macro_f1
  dsimp only
  have hLne : (yt ++ yp).dedup ≠ [] := by
    rcases yt with _ | ⟨a, t⟩
    · exact absurd rfl h
    · intro hc
      have hmem : a ∈ (((a :: t) ++ yp).dedup) :=
        List.mem_dedup.mpr (List.mem_append_left _ (List.mem_cons_self a t))
      rw [hc] at hmem
      exact absurd hmem (List.not_mem_nil a)
  have hlen : 0 < (((yt ++ yp).dedup).length : ℚ) := by
    have := List.length_pos.mpr hLne
    exact_mod_cast this
  have hsum0 : 0 ≤ (((yt ++ yp).dedup).map (fun c => f1_class c yt yp)).sum := by
    apply List.sum_nonneg
    intro x hx
    obtain ⟨c, _, rfl⟩ := List.mem_map.mp hx
    exact (f1_class_bounds c yt yp).1
  have hsum1 : (((yt ++ yp).dedup).map (fun c => f1_class c yt yp)).sum
      ≤ (((yt ++ yp).dedup).length : ℚ) := by
    have hs := List.sum_le_card_nsmul (((yt ++ yp).dedup).map (fun c => f1_class c yt yp)) 1
      (by
        intro x hx
        obtain ⟨c, _, rfl⟩ := List.mem_map.mp hx
        exact (f1_class_bounds c yt yp).2)
    rw [List.length_map] at hs
    simpa [nsmul_eq_mul] using hs
  exact ⟨div_nonneg hsum0 (le_of_lt hlen), by rw [div_le_one hlen]; exact hsum1⟩

lemma round_half_even_bounds (x : ℚ) (a b : ℤ) (ha : (a:ℚ) ≤ x) (hb : x ≤ (b:ℚ)) :
    a ≤ round_half_even x ∧ round_half_even x ≤ b := by
  unfold round_half_even
  dsimp only
  have hfa : a ≤ ⌊x⌋ := Int.le_floor.mpr ha
  have hfb : ⌊x⌋ ≤ b := by
    have h2 := Int.floor_le_floor hb
    rwa [Int.floor_intCast] at h2
  have hfx : (⌊x⌋ : ℚ) ≤ x := Int.floor_le x
  split_ifs with h1 h2 h3
  · exact ⟨hfa, hfb⟩
  · have hlt : (⌊x⌋:ℚ) < (b:ℚ) := by linarith
    have hlt2 : ⌊x⌋ < b := by exact_mod_cast hlt
    exact ⟨by omega, by omega⟩
  · exact ⟨hfa, hfb⟩
  · have h12 : x - ⌊x⌋ = 1/2 := le_antisymm (not_lt.mp h2) (not_lt.mp h1)
    have hlt : (⌊x⌋:ℚ) < (b:ℚ) := by
      have : (⌊x⌋:ℚ) < x := by linarith
      linarith
    have hlt2 : ⌊x⌋ < b := by exact_mod_cast hlt
    exact ⟨by omega, by omega⟩

lemma py_round_bounds_01 (x : ℚ) (n : ℕ) (h0 : 0 ≤ x) (h1 : x ≤ 1) :
    0 ≤ py_round x n ∧ py_round x n ≤ 1 := by
  unfold py_round
  have hpow : (0:ℚ) < 10 ^ n := by positivity
  have hb := round_half_even_bounds (x * 10 ^ n) 0 (10 ^ n)
    (by push_cast; positivity)
    (by push_cast; nlinarith)
  constructor
  · apply div_nonneg _ (le_of_lt hpow)
    exact_mod_cast hb.1
  · rw [div_le_one hpow]
    calc ((round_half_even (x * 10 ^ n)):ℚ) ≤ (((10:ℤ) ^ n : ℤ):ℚ) := by exact_mod_cast hb.2
    _ = 10 ^ n := by push_cast; ring

lemma lookup_lm_none_iff (m : LabelMap) (k : ℕ) :
    lookup_lm m k = none ↔ k ∉ m.map Prod.fst := by
  unfold lookup_lm
  rw [Option.map_eq_none', List.find?_eq_none]
  constructor
  · intro hall hmem
    obtain ⟨p, hp, hpk⟩ := List.mem_map.mp hmem
    exact absurd (beq_iff_eq.mpr hpk) (by simpa using hall p hp)
  · intro hnot p hp
    simp only [beq_iff_eq]
    intro hpk
    exact hnot (List.mem_map.mpr ⟨p, hp, hpk⟩)

lemma mem_key_set (m : LabelMap) (k : ℕ) : k ∈ key_set m ↔ k ∈ m.map Prod.fst := by
  unfold key_set
  exact List.mem_toFinset

lemma filter_nil_iff {α : Type} (p : α → Bool) (l : List α) :
    l.filter p = [] ↔ ∀ a ∈ l, ¬ p a = true := by
  induction l with
  | nil => simp
  | cons x xs ih =>
    rw [List.filter_cons]
    by_cases hp : p x = true
    · simp [hp]
    · simp only [hp, if_false, ih]
      simp only [Bool.not_eq_true] at hp
      simp [hp]

lemma isEmpty_false_of_ne {α : Type} (l : List α) (h : l ≠ []) : l.isEmpty = false := by
  cases l with
  | nil => exact absurd rfl h
  | cons x xs => rfl

lemma isEmpty_true_of_eq {α : Type} (l : List α) (h : l = []) : l.isEmpty = true := by
  subst h
  rfl

lemma key_set_card (m : LabelMap) (h : (m.map Prod.fst).Nodup) :
    (key_set m).card = (m.map Prod.fst).length := by
  unfold key_set
  exact List.toFinset_card_of_nodup h

/-- C8 (amended) — Evaluation contract of `compute_f1_scores`.  (i) An empty
ground-truth mapping yields the explicit undefined result (no numeric
score) for both label dimensions, for every generated mapping — including a
nonempty one, so the empty-ground-truth rule takes precedence over the
mismatched-key-set rule (the original claim required an error whenever the
key sets differ; the code returns the undefined result when the ground
truth is empty, see the counterexample).  (ii) For a nonempty ground truth,
mappings whose frame-index key sets differ always raise a contract error.
(iii) For a nonempty ground truth with equal key sets, both computed
agreement scores lie in [0, 1]. -/
theorem c8_evaluation_contract_amended :
    (∀ gen : LabelMap, compute_f1_scores [] gen = Except.ok (none, none)) ∧
    (∀ gt gen : LabelMap, gt ≠ [] → (gt.map Prod.fst).Nodup → (gen.map Prod.fst).Nodup →
      key_set gt ≠ key_set gen →
      ∃ msg, compute_f1_scores gt gen = Except.error msg) ∧
    (∀ gt gen : LabelMap, gt ≠ [] → (gt.map Prod.fst).Nodup → (gen.map Prod.fst).Nodup →
      key_set gt = key_set gen →
      ∃ e p, compute_f1_scores gt gen = Except.ok (some e, some p) ∧
        0 ≤ e ∧ e ≤ 1 ∧ 0 ≤ p ∧ p ≤ 1) := by
  refine ⟨fun gen => rfl, ?_, ?_⟩
  · intro gt gen hne hnd1 hnd2 hkne
    unfold compute_f1_scores
    rw [if_neg (by simp [isEmpty_false_of_ne gt hne])]
    dsimp only
    by_cases hlen : (sort_le (fun a b : ℕ => decide (a ≤ b)) (gt.map Prod.fst)).length
        ≠ (sort_le (fun a b : ℕ => decide (a ≤ b)) (gen.map Prod.fst)).length
    · rw [if_pos hlen]
      exact ⟨_, rfl⟩
    · rw [if_neg hlen]
      have hleneq := not_ne_iff.mp hlen
      have hsub : ¬ (∀ k ∈ gt.map Prod.fst, k ∈ gen.map Prod.fst) := by
        intro hall
        apply hkne
        have hsubset : key_set gt ⊆ key_set gen := by
          intro k hk
          exact (mem_key_set gen k).mpr (hall k ((mem_key_set gt k).mp hk))
        have hcard : (key_set gen).card ≤ (key_set gt).card := by
          rw [key_set_card gt hnd1, key_set_card gen hnd2]
          have e1 := length_sort_le (fun a b : ℕ => decide (a ≤ b)) (gt.map Prod.fst)
          have e2 := length_sort_le (fun a b : ℕ => decide (a ≤ b)) (gen.map Prod.fst)
          omega
        exact Finset.eq_of_subset_of_card_le hsubset hcard
      push_neg at hsub
      obtain ⟨k, hkgt, hkgen⟩ := hsub
      have hkmem : k ∈ sort_le (fun a b : ℕ => decide (a ≤ b)) (gt.map Prod.fst) :=
        (mem_sort_le _ k _).mpr hkgt
      have hmiss : (sort_le (fun a b : ℕ => decide (a ≤ b)) (gt.map Prod.fst)).filter
          (fun f => (lookup_lm gen f).isNone) ≠ [] := by
        intro hnil
        apply (filter_nil_iff _ _).mp hnil k hkmem
        rw [Option.isNone_iff_eq_none]
        exact (lookup_lm_none_iff gen k).mpr hkgen
      rw [if_pos (isEmpty_false_of_ne _ hmiss)]
      exact ⟨_, rfl⟩
  · intro gt gen hne hnd1 hnd2 hkeq
    unfold compute_f1_scores
    rw [if_neg (by simp [isEmpty_false_of_ne gt hne])]
    dsimp only
    have hcard : (gt.map Prod.fst).length = (gen.map Prod.fst).length := by
      rw [← key_set_card gt hnd1, ← key_set_card gen hnd2, hkeq]
    have hlen : ¬ ((sort_le (fun a b : ℕ => decide (a ≤ b)) (gt.map Prod.fst)).length
        ≠ (sort_le (fun a b : ℕ => decide (a ≤ b)) (gen.map Prod.fst)).length) := by
      rw [length_sort_le, length_sort_le]
      omega
    rw [if_neg hlen]
    have hmiss : (sort_le (fun a b : ℕ => decide (a ≤ b)) (gt.map Prod.fst)).filter
        (fun f => (lookup_lm gen f).isNone) = [] := by
      apply (filter_nil_iff _ _).mpr
      intro k hk
      have hkgt : k ∈ gt.map Prod.fst := (mem_sort_le _ k _).mp hk
      have hkgen : k ∈ gen.map Prod.fst :=
        (mem_key_set gen k).mp (hkeq ▸ (mem_key_set gt k).mpr hkgt)
      intro hnone
      rw [Option.isNone_iff_eq_none] at hnone
      exact absurd hkgen ((lookup_lm_none_iff gen k).mp hnone)
    rw [if_neg (by rw [isEmpty_true_of_eq _ hmiss]; simp)]
    have hgtk_ne : sort_le (fun a b : ℕ => decide (a ≤ b)) (gt.map Prod.fst) ≠ [] := by
      apply List.length_pos.mp
      rw [length_sort_le, List.length_map]
      exact List.length_pos.mpr hne
    have heye_ne : (sort_le (fun a b : ℕ => decide (a ≤ b)) (gt.map Prod.fst)).map
        (fun f => ((lookup_lm gt f).getD default).eye_state.getD "") ≠ [] := by
      apply List.length_pos.mp
      rw [List.length_map]
      exact List.length_pos.mpr hgtk_ne
    have hpos_ne : (sort_le (fun a b : ℕ => decide (a ≤ b)) (gt.map Prod.fst)).map
        (fun f => ((lookup_lm gt f).getD default).posture.getD "") ≠ [] := by
      apply List.length_pos.mp
      rw [List.length_map]
      exact List.length_pos.mpr hgtk_ne
    refine ⟨_, _, rfl, ?_, ?_, ?_, ?_⟩
    · exact (py_round_bounds_01 _ 4 (macro_f1_bounds _ _ heye_ne).1
        (macro_f1_bounds _ _ heye_ne).2).1
    · exact (py_round_bounds_01 _ 4 (macro_f1_bounds _ _ heye_ne).1
        (macro_f1_bounds _ _ heye_ne).2).2
    · exact (py_round_bounds_01 _ 4 (macro_f1_bounds _ _ hpos_ne).1
        (macro_f1_bounds _ _ hpos_ne).2).1
    · exact (py_round_bounds_01 _ 4 (macro_f1_bounds _ _ hpos_ne).1
        (macro_f1_bounds _ _ hpos_ne).2).2

/-! ## Concrete evaluations: counterexamples and witnesses

Batteries marks the `Rat` field operations `@[irreducible]`; the states
computed below are evaluated by the kernel, so reducibility is restored
locally for this closing section of concrete computations. -/

set_option allowUnsafeReducibility true

attribute [local semireducible] Rat.add Rat.mul Rat.sub Rat.inv Rat.div Rat.neg Rat.ofScientific

set_option maxRecDepth 1000000

/-- A calibration frame whose measurements are all accepted: face height
`|160 − 60| = 100` pixels, shoulder width `|0 − 50| = 50` pixels, nose at
y = 115, outer-eye pixel distance `|0 − 10| = 10`. -/
def calib_ok_face : FacePx :=
  { nose_x := 0, nose_y := 115, chin_y := 160, fore_y := 60, eye_l_x := 0, eye_r_x := 10 }

/-- The matching body landmarks: shoulders at (0, 200) and (50, 200). -/
def calib_ok_pose : PosePx :=
  { lsh_x := 0, lsh_y := 200, rsh_x := 50, rsh_y := 200 }

/-- The posture state after 60 accepted calibration frames: calibration has
succeeded with `face_ref = 100`, `shoulder_ref = 50`. -/
def calibrated_state : PostureState :=
  run_calib init_posture_state (List.replicate 60 (some calib_ok_face, some calib_ok_pose))

/-- C1 — Evaluation of `calibrate_posture_frame` at the failing input: 61
identical accepted frames.  After frame 60 calibration has succeeded, both
references are set and both buffers are cleared — but the clearing
statement `state["calib_face"] = state["calib_shoulder"] = []` binds both
keys to one shared list, and the function keeps accepting samples, so frame
61 accumulates its face height (100) and shoulder width (50) into both
(aliased) buffers although `calibrated` is already true, contradicting the
claim (and the spec) that no further samples are ever accumulated after
calibration succeeds. -/
theorem c1_post_calibration_accumulation :
    calibrated_state.calibrated = true ∧
    calibrated_state.calib_face = [] ∧
    calibrated_state.calib_shoulder = [] ∧
    calibrated_state.face_ref = some 100 ∧
    calibrated_state.shoulder_ref = some 50 ∧
    (run_calib init_posture_state
      (List.replicate 61 (some calib_ok_face, some calib_ok_pose))).calibrated = true ∧
    (run_calib init_posture_state
      (List.replicate 61 (some calib_ok_face, some calib_ok_pose))).calib_face = [100, 50] ∧
    (run_calib init_posture_state
      (List.replicate 61 (some calib_ok_face, some calib_ok_pose))).calib_shoulder = [100, 50] := by
  decide

/-- C3 counterexample — at fps = 1 the code yields `min_history = 10` but
`history_frames = 2`, violating the claimed `minHistoryFrames ≤
historyFrames` for fps ≥ 1. -/
theorem c3_fps_one_counterexample :
    (1:ℚ) ≤ 1 ∧
    (init_eye_state 1).min_history = 10 ∧
    (init_eye_state 1).history_frames = 2 ∧
    ¬ ((init_eye_state 1).min_history ≤ (init_eye_state 1).history_frames) := by
  decide

theorem c3_derived_constants_amended_witness :
    (1:ℚ) ≤ 30 ∧ (5:ℚ) ≤ 30 ∧
    1 ≤ (init_eye_state 30).history_frames ∧ 1 ≤ (init_eye_state 30).min_history ∧
    1 ≤ (init_eye_state 30).consec_closed ∧ 1 ≤ (init_eye_state 30).consec_open ∧
    (init_eye_state 30).min_history ≤ (init_eye_state 30).history_frames :=
  ⟨by decide, by decide,
   (c3_derived_constants_amended.1 30 (by decide)).1,
   (c3_derived_constants_amended.1 30 (by decide)).2.1,
   (c3_derived_constants_amended.1 30 (by decide)).2.2.1,
   (c3_derived_constants_amended.1 30 (by decide)).2.2.2,
   c3_derived_constants_amended.2 30 (by decide)⟩

/-- C4 counterexample — at fps = 1 (`min_history = 10`, `history_frames =
2`) feeding exactly `min_history` = 10 valid frames leaves `warmed_up`
false: the deque's eviction cap keeps the history at 2 entries, so warm-up
never completes, contradicting the claim for every freshly initialized
state. -/
theorem c4_fps_one_counterexample :
    (init_eye_state 1).min_history = 10 ∧
    (run_ears (init_eye_state 1) (List.replicate 10 1)).warmed_up = false := by
  decide

theorem c4_warmup_amended_witness :
    (5:ℚ) ≤ 30 ∧
    (List.replicate 15 (1:ℚ)).length = (init_eye_state 30).min_history ∧
    ((run_ears (init_eye_state 30) ((List.replicate 15 (1:ℚ)).take 15)).warmed_up = true ↔
      15 = (init_eye_state 30).min_history) ∧
    ((run_ears (init_eye_state 30) ((List.replicate 15 (1:ℚ)).take 14)).warmed_up = true ↔
      14 = (init_eye_state 30).min_history) ∧
    ((process_eye_frame (some 1) (run_ears (init_eye_state 30) (List.replicate 15 1))).1).warmed_up
      = true :=
  ⟨by decide, by decide,
   c4_warmup_amended.1 30 (by decide) (List.replicate 15 1) (by decide) 15 (by decide),
   c4_warmup_amended.1 30 (by decide) (List.replicate 15 1) (by decide) 14 (by decide),
   c4_warmup_amended.2 (some 1) (run_ears (init_eye_state 30) (List.replicate 15 1)) (by decide)⟩

/-- The eye state used in the C5 counterexample: warmed up at fps 30 on 15
frames of ratio 1 (median 1, close threshold 0.65, open threshold 0.75,
`consec_closed` = 2, `consec_open` = 3), then one frame of ratio 0.5, which
leaves the eyes open with a residual `closed_counter` of 1. -/
def c5_state : EyeState :=
  run_ears (init_eye_state 30) (List.replicate 15 1 ++ [0.5])

/-- C5 counterexample — from the warmed-up, eyes-open state `c5_state`
(whose `closed_counter` is 1), a dip of a single frame (shorter than
`consec_closed` = 2) below the close threshold, followed by ratios at or
above it, emits one blink increment, contradicting the claimed zero: the
dip completes the residual closed streak, and the subsequent open frames
fire a blink. -/
theorem c5_short_dip_counterexample :
    c5_state.warmed_up = true ∧
    c5_state.eyes_closed = false ∧
    c5_state.closed_counter = 1 ∧
    c5_state.consec_closed = 2 ∧
    all_below_close c5_state [0.3] = true ∧
    ([0.3] : List ℚ).length < c5_state.consec_closed ∧
    all_at_or_above_close (run_ears c5_state [0.3]) [1, 1, 1] = true ∧
    incr_total c5_state ([0.3] ++ [1, 1, 1]) = 1 := by
  decide

/-- The freshly warmed-up eye state used in the C5 witness (as `c5_state`
but without the extra dip frame, so its `closed_counter` is 0). -/
def c5w_state : EyeState :=
  run_ears (init_eye_state 30) (List.replicate 15 1)

theorem c5_combined_blink_amended_witness :
    c5w_state.warmed_up = true ∧ c5w_state.eyes_closed = false ∧
    c5w_state.closed_counter = 0 ∧ hist_nonneg c5w_state ∧
    1 ≤ c5w_state.consec_closed ∧ 1 ≤ c5w_state.consec_open ∧
    all_below_close c5w_state [0.3, 0.3] = true ∧
    c5w_state.consec_closed ≤ ([0.3, 0.3] : List ℚ).length ∧
    all_above_open (run_ears c5w_state [0.3, 0.3]) [1, 1, 1] = true ∧
    c5w_state.consec_open ≤ ([1, 1, 1] : List ℚ).length ∧
    incr_total c5w_state ([0.3, 0.3] ++ [1, 1, 1]) = 1 ∧
    (incr_list c5w_state ([0.3, 0.3] ++ [1, 1, 1])).count 1 = 1 ∧
    (run_ears c5w_state ([0.3, 0.3] ++ [1, 1, 1])).blink_count = c5w_state.blink_count + 1 ∧
    incr_total c5w_state ([0.5] ++ [0.7, 0.8]) = 0 :=
  ⟨by decide, by decide, by decide, by decide, by decide, by decide,
   by decide, by decide, by decide, by decide,
   ((c5_combined_blink_amended c5w_state (by decide) (by decide) (by decide) (by decide)
      (by decide) (by decide)).1 [0.3, 0.3] [1, 1, 1]
      (by decide) (by decide) (by decide) (by decide)).1,
   ((c5_combined_blink_amended c5w_state (by decide) (by decide) (by decide) (by decide)
      (by decide) (by decide)).1 [0.3, 0.3] [1, 1, 1]
      (by decide) (by decide) (by decide) (by decide)).2.1,
   ((c5_combined_blink_amended c5w_state (by decide) (by decide) (by decide) (by decide)
      (by decide) (by decide)).1 [0.3, 0.3] [1, 1, 1]
      (by decide) (by decide) (by decide) (by decide)).2.2,
   (c5_combined_blink_amended c5w_state (by decide) (by decide) (by decide) (by decide)
      (by decide) (by decide)).2 [0.5] [0.7, 0.8]
      (by decide) (by decide) (by decide)⟩

/-- Source `np.exp` instance used in the concrete posture evaluations; the frame
data is arranged so that the exponent is 0, where the real exponential is
exactly 1, so this instance agrees with `np.exp` at the evaluated point. -/
def exp_one : ℚ → ℚ := fun _ => 1

theorem c6_ema_convex_witness :
    (process_posture_frame exp_one (some calib_ok_face) (some calib_ok_pose)
      calibrated_state).2.status = "Straight" ∧
    (0 < EMA_ALPHA ∧ EMA_ALPHA < 1 ∧
     ∃ r, posture_raw exp_one (some calib_ok_face) (some calib_ok_pose) calibrated_state
            = some r ∧
       (process_posture_frame exp_one (some calib_ok_face) (some calib_ok_pose)
          calibrated_state).1.smooth_score
         = EMA_ALPHA * r + (1 - EMA_ALPHA) * calibrated_state.smooth_score ∧
       min calibrated_state.smooth_score r ≤
         (process_posture_frame exp_one (some calib_ok_face) (some calib_ok_pose)
            calibrated_state).1.smooth_score ∧
       (process_posture_frame exp_one (some calib_ok_face) (some calib_ok_pose)
          calibrated_state).1.smooth_score ≤ max calibrated_state.smooth_score r) :=
  ⟨by decide,
   c6_ema_convex exp_one (some calib_ok_face) (some calib_ok_pose) calibrated_state
     (Or.inl (by decide))⟩

/-- C7 counterexample — the frame `calib_ok_face` has outer-eye pixel width
10 < 20, i.e. a face too small for the distance estimate, yet on the
calibrated state with usable shoulders the scoring call runs the primary
branch: it returns the status `Straight` (not a diagnostic status) and
moves `smooth_score` from 1.25 to 1.625, contradicting the claim as
stated. -/
theorem c7_small_eye_counterexample :
    (calib_ok_face.eye_l_x - calib_ok_face.eye_r_x).natAbs < 20 ∧
    estimate_distance calib_ok_face = none ∧
    (MIN_FACE_PX ≤ face_h calib_ok_face ∧ face_h calib_ok_face ≤ MAX_FACE_PX) ∧
    calibrated_state.calibrated = true ∧
    (process_posture_frame exp_one (some calib_ok_face) (some calib_ok_pose)
      calibrated_state).2.status = "Straight" ∧
    calibrated_state.smooth_score = 1.25 ∧
    (process_posture_frame exp_one (some calib_ok_face) (some calib_ok_pose)
      calibrated_state).1.smooth_score = 1.625 := by
  decide

/-- A face whose height (1000 px) lies outside the plausible range. -/
def c7_far_face : FacePx :=
  { nose_x := 0, nose_y := 0, chin_y := 1000, fore_y := 0, eye_l_x := 0, eye_r_x := 100 }

/-- A face in the plausible height range whose outer-eye pixel width (5) is
too small for the distance estimate. -/
def c7_small_face : FacePx :=
  { nose_x := 0, nose_y := 0, chin_y := 100, fore_y := 0, eye_l_x := 0, eye_r_x := 5 }

theorem c7_diagnostic_frames_amended_witness :
    ((process_posture_frame exp_one none none init_posture_state).2.status = "No face" ∧
     (process_posture_frame exp_one none none init_posture_state).1.smooth_score
       = init_posture_state.smooth_score) ∧
    ((process_posture_frame exp_one (some c7_far_face) none init_posture_state).2.status
       = "Too close/far" ∧
     (process_posture_frame exp_one (some c7_far_face) none init_posture_state).1.smooth_score
       = init_posture_state.smooth_score) ∧
    ((process_posture_frame exp_one (some c7_small_face) none init_posture_state).2.status
       = "Face too small" ∧
     (process_posture_frame exp_one (some c7_small_face) none init_posture_state).1.smooth_score
       = init_posture_state.smooth_score) :=
  ⟨(c7_diagnostic_frames_amended exp_one none none init_posture_state).1 rfl,
   (c7_diagnostic_frames_amended exp_one (some c7_far_face) none init_posture_state).2.1
     c7_far_face rfl (by decide),
   (c7_diagnostic_frames_amended exp_one (some c7_small_face) none init_posture_state).2.2
     c7_small_face rfl (by decide) (by decide)
     (by rintro ⟨pp, hpp, _⟩; exact Option.noConfusion hpp)⟩

/-- A one-frame generated label mapping. -/
def c8_gen : LabelMap := [(0, { eye_state := some "Open", posture := some "Straight" })]

/-- A one-frame ground-truth mapping on the same frame index. -/
def c8_gt : LabelMap := [(0, { eye_state := some "Open", posture := some "Hunched" })]

/-- A one-frame generated mapping on a different frame index. -/
def c8_gen_b : LabelMap := [(1, { eye_state := some "Open", posture := some "Straight" })]

/-- C8 counterexample — an empty ground-truth mapping against a nonempty
generated mapping: the frame-index key sets differ, yet `compute_f1_scores`
returns the undefined result instead of raising a contract error, because
the empty-ground-truth check comes first, contradicting the claim that
differing key sets always raise. -/
theorem c8_empty_gt_counterexample :
    key_set ([] : LabelMap) ≠ key_set c8_gen ∧
    compute_f1_scores [] c8_gen = Except.ok (none, none) := by
  constructor
  · decide
  · rfl

theorem c8_evaluation_contract_amended_witness :
    compute_f1_scores [] c8_gen = Except.ok (none, none) ∧
    (∃ msg, compute_f1_scores c8_gt c8_gen_b = Except.error msg) ∧
    (∃ e p, compute_f1_scores c8_gt c8_gen = Except.ok (some e, some p) ∧
      0 ≤ e ∧ e ≤ 1 ∧ 0 ≤ p ∧ p ≤ 1) :=
  ⟨c8_evaluation_contract_amended.1 c8_gen,
   c8_evaluation_contract_amended.2.1 c8_gt c8_gen_b (by decide) (by decide) (by decide)
     (by decide),
   c8_evaluation_contract_amended.2.2 c8_gt c8_gen (by decide) (by decide) (by decide)
     (by decide)⟩

/-- The degenerate norm (every distance 0) used in the C9 witness. -/
def zero_norm : ℚ × ℚ → ℚ := fun _ => 0

/-- The degenerate landmark array (every point at the origin) used in the
C9 witness. -/
def zero_lm : ℕ → ℚ × ℚ := fun _ => (0, 0)

theorem c9_degenerate_eye_geometry_witness :
    lm_dist zero_norm zero_lm 33 133 ≤ 0 ∧ left_ear zero_norm zero_lm = 0 ∧
    lm_dist zero_norm zero_lm 362 263 ≤ 0 ∧ right_ear zero_norm zero_lm = 0 ∧
    ear_from_landmarks zero_norm zero_lm
      = (left_ear zero_norm zero_lm + right_ear zero_norm zero_lm) / 2 :=
  ⟨by decide,
   (c9_degenerate_eye_geometry zero_norm zero_lm).1 (by decide),
   by decide,
   (c9_degenerate_eye_geometry zero_norm zero_lm).2.1 (by decide),
   (c9_degenerate_eye_geometry zero_norm zero_lm).2.2⟩

/-- A frame with no detections, used in the C2 witness. -/
def empty_frame : Frame := { ear := none, face := none, pose := none }

theorem c2_setup_exit_and_failure_witness :
    (run_setup 1 []).warmup_done = false ∧
    process_setup 1 [] = Except.error SetupFailure.warmup_failed ∧
    setup_loop [empty_frame] (init_eye_state 1) init_posture_state true true =
      { eye := init_eye_state 1, posture := init_posture_state, warmup_done := true,
        calib_done := true, remaining := [empty_frame] } :=
  ⟨rfl,
   c2_setup_exit_and_failure.2.1 1 [] rfl,
   c2_setup_exit_and_failure.1 (init_eye_state 1) init_posture_state empty_frame []⟩
